import Mathlib

/-!
Verification of the Sleeper trade-undo simulation engine and draft-pick
provenance resolver.

The definitions below are a shallow embedding of the TypeScript source:

* `src/services/tradeSimulationEngine.ts` — the simulation engine
  (`calculateStandings`, `calculateStandingsFromMatchups`, `undoTrade`,
  `createAlternateRosters`, `calculateSimulatedPoints`,
  `simulateMatchupsWithAlternateRosters`, `calculateWeeklyImpact`,
  `getMatchupResult`, `getAffectedTeams`, `simulateUndoTrades`).
* the trade-selector component (complete revision) — the draft-pick
  resolver (`findLeagueIdForSeason`, `calculateRankFromRecord`,
  `formatDraftPick`).

Modelling conventions:

* JS numbers are modelled by `Int` where the source stores counts and
  identifiers, and by `ℚ` where the source stores fantasy-point values
  (floating point rounding is not modelled).  `Math.round` is half-up
  rounding, which on `ℚ` is Mathlib's `round`.
* JS objects used as finite maps (`adds`, `drops`, `players_points`,
  weekly matchup records) are modelled as association lists in iteration
  order; integer-keyed records are iterated by JS in ascending key order,
  which the embedding makes explicit where it matters.
* JS `x || y` on strings treats `""` as falsy and on numbers treats `0`
  as falsy; the helpers `jsOrString`, `jsOrInt` reproduce this.
* `Array.prototype.sort` is stable; it is modelled by `List.insertionSort`
  with the non-strict "comes before" relation of the JS comparator, which
  is also stable.
* In-place mutation through object references (`rosters.find(...)` then
  field assignment) is modelled by `modifyFirst`, which rewrites the first
  list entry matching the predicate; an explicit heap model
  (`createAlternateRostersOnHeap`) is used for the non-mutation claim.
-/

namespace Sleeper

/-! ### Data model (from `src/types/sleeper.ts`) -/

/-- Cumulative season stats of a roster (`SleeperRoster.settings`).
Fields are optional because the engine defensively reads them as
`settings.wins || 0` etc. -/
structure RosterSettings where
  wins : Option Int
  losses : Option Int
  ties : Option Int
  fpts : Option ℚ
  fpts_against : Option ℚ
deriving Repr, DecidableEq, Inhabited

/-- One team's holdings and season record (`SleeperRoster`). -/
structure Roster where
  roster_id : Int
  owner_id : String
  players : List String
  starters : List String
  settings : RosterSettings
deriving Repr, DecidableEq, Inhabited

/-- A league member (`SleeperUser`). -/
structure User where
  user_id : String
  username : String
  display_name : String
deriving Repr, DecidableEq, Inhabited

/-- One team's entry for one week (`SleeperMatchup`).  Two matchups of a
week sharing `matchup_id` are opponents.  `players_points` is the
per-player box score, read as `players_points?.[id] || 0`. -/
structure Matchup where
  roster_id : Int
  matchup_id : Int
  points : ℚ
  players_points : Option (List (String × ℚ))
deriving Repr, DecidableEq, Inhabited

/-- A completed trade transaction (`SleeperTrade`).  `adds` maps a player
id to the roster that received the player, `drops` maps a player id to
the roster that sent the player. -/
structure Trade where
  transaction_id : String
  status_updated : Int
  roster_ids : List Int
  adds : Option (List (String × Int))
  drops : Option (List (String × Int))
deriving Repr, DecidableEq, Inhabited

/-- A row of computed standings (`TeamStanding`). -/
structure TeamStanding where
  rosterId : Int
  teamName : String
  wins : Int
  losses : Int
  ties : Int
  pointsFor : ℚ
  pointsAgainst : ℚ
  rank : Nat
deriving Repr, DecidableEq, Inhabited

/-- A weekly win/loss/tie outcome (the engine's `'W' | 'L' | 'T'`). -/
inductive MatchResult
  | W
  | L
  | T
deriving Repr, DecidableEq, Inhabited

/-- Per-team entry of the weekly impact report (`TeamWeeklyImpact`). -/
structure TeamWeeklyImpact where
  rosterId : Int
  teamName : String
  originalPoints : ℚ
  simulatedPoints : ℚ
  difference : ℚ
  originalResult : MatchResult
  simulatedResult : MatchResult
deriving Repr, DecidableEq, Inhabited

/-- One week of the impact report (`WeeklyImpact`). -/
structure WeeklyImpact where
  week : Nat
  teamImpacts : List TeamWeeklyImpact
deriving Repr, DecidableEq, Inhabited

/-- The orchestrator's result (`TradeSimulationResult`). -/
structure TradeSimulationResult where
  originalStandings : List TeamStanding
  simulatedStandings : List TeamStanding
  weeklyImpact : List WeeklyImpact
  affectedTeams : List String
deriving Repr, DecidableEq, Inhabited

/-! ### JS helpers -/

/-- JS `x || 0` on a possibly-missing integer field (`0` is falsy, so a
present `0` and a missing field both give `0`). -/
def jsInt (o : Option Int) : Int := o.getD 0

/-- JS `x || 0` on a possibly-missing fantasy-point field. -/
def jsRat (o : Option ℚ) : ℚ := o.getD 0

/-- JS `a || b` on strings: the empty string is falsy. -/
def jsOrString (a b : String) : String := if a = "" then b else a

/-- JS `Math.round(x * 100) / 100`, the engine's two-decimal rounding. -/
def round2 (x : ℚ) : ℚ := ((round (100 * x) : ℤ) : ℚ) / 100

/-! ### Standings calculator (`calculateStandings`) -/

/-- Team display name (`getTeamName`):
`user?.display_name || user?.username || "Team <id>"`. -/
def getTeamName (users : List User) (roster : Roster) : String :=
  match users.find? (fun u => u.user_id == roster.owner_id) with
  | some u => jsOrString u.display_name (jsOrString u.username ("Team " ++ toString roster.roster_id))
  | none => "Team " ++ toString roster.roster_id

/-- The JS sort comparator of the standings calculator, as a "comes
before (or is equivalent)" relation: `(a, b) => b.wins - a.wins`,
tie-broken by `b.pointsFor - a.pointsFor`. -/
def standingBefore (a b : TeamStanding) : Prop :=
  b.wins < a.wins ∨ (a.wins = b.wins ∧ b.pointsFor ≤ a.pointsFor)

instance : DecidableRel standingBefore := fun a b => by
  unfold standingBefore; infer_instance

instance : IsTotal TeamStanding standingBefore := by
  constructor
  intro a b
  rcases lt_trichotomy a.wins b.wins with h | h | h
  · exact Or.inr (Or.inl h)
  · rcases le_total a.pointsFor b.pointsFor with hp | hp
    · exact Or.inr (Or.inr ⟨h.symm, hp⟩)
    · exact Or.inl (Or.inr ⟨h, hp⟩)
  · exact Or.inl (Or.inl h)

instance : IsTrans TeamStanding standingBefore := by
  constructor
  intro a b c hab hbc
  rcases hab with h1 | ⟨h1, h1p⟩
  · rcases hbc with h2 | ⟨h2, _⟩
    · exact Or.inl (h2.trans h1)
    · exact Or.inl (h2 ▸ h1)
  · rcases hbc with h2 | ⟨h2, h2p⟩
    · exact Or.inl (h1 ▸ h2)
    · exact Or.inr ⟨h1.trans h2, h2p.trans h1p⟩

/-- A standings row built from a roster's season-stat fields, with the
given provisional rank (the source maps `rank: index + 1` before
sorting). -/
def standingOfRoster (users : List User) (roster : Roster) (rank : Nat) : TeamStanding :=
  { rosterId := roster.roster_id
    teamName := getTeamName users roster
    wins := jsInt roster.settings.wins
    losses := jsInt roster.settings.losses
    ties := jsInt roster.settings.ties
    pointsFor := jsRat roster.settings.fpts
    pointsAgainst := jsRat roster.settings.fpts_against
    rank := rank }

/-- The pre-sort map of `calculateStandings`: each roster becomes a row
whose provisional rank is its 1-based input position. -/
def standingsOfRostersFrom (users : List User) (n : Nat) : List Roster → List TeamStanding
  | [] => []
  | r :: rs => standingOfRoster users r n :: standingsOfRostersFrom users (n + 1) rs

/-- The post-sort rank assignment `.map((team, index) => ({ ...team,
rank: index + 1 }))`, generalised over the starting rank. -/
def assignRanksFrom (n : Nat) : List TeamStanding → List TeamStanding
  | [] => []
  | t :: ts => { t with rank := n } :: assignRanksFrom (n + 1) ts

/-- The standings calculator `calculateStandings`: build rows from roster
season stats, stable-sort by wins then points-for (both descending),
re-assign 1-based ranks. -/
def calculateStandings (users : List User) (rosters : List Roster) : List TeamStanding :=
  assignRanksFrom 1 (List.insertionSort standingBefore (standingsOfRostersFrom users 1 rosters))

/-! ### Standings from matchups (`calculateStandingsFromMatchups`) -/

/-- The per-team accumulator of `calculateStandingsFromMatchups`. -/
structure TeamStatRec where
  wins : Int
  losses : Int
  ties : Int
  pointsFor : ℚ
  pointsAgainst : ℚ
deriving Repr, DecidableEq, Inhabited

/-- The `teamStats` record, keyed by roster id.  The source initialises a
key per roster with all-zero stats; the embedding models the record as a
total function defaulting to zero. -/
abbrev StatTable := Int → TeamStatRec

/-- Point update of one key of the stats record. -/
def updateStat (tbl : StatTable) (rid : Int) (f : TeamStatRec → TeamStatRec) : StatTable :=
  fun j => if j = rid then f (tbl j) else tbl j

/-- Grouping a week's matchups by `matchup_id` (`matchupGroups`).  JS
iterates the integer-keyed group record in ascending key order. -/
def groupByMatchupId (ms : List Matchup) : List (List Matchup) :=
  (List.insertionSort (fun a b => a ≤ b) (ms.map (fun m => m.matchup_id)).dedup).map
    (fun mid => ms.filter (fun m => m.matchup_id == mid))

/-- Processing one matchup pairing: a group with exactly two entries
contributes points-for/against and a win/loss or tie to both teams; any
other group size is skipped. -/
def applyPairStats (tbl : StatTable) (g : List Matchup) : StatTable :=
  match g with
  | [t1, t2] =>
    let tblP :=
      updateStat
        (updateStat tbl t1.roster_id
          (fun s => { s with pointsFor := s.pointsFor + t1.points, pointsAgainst := s.pointsAgainst + t2.points }))
        t2.roster_id
        (fun s => { s with pointsFor := s.pointsFor + t2.points, pointsAgainst := s.pointsAgainst + t1.points })
    if t1.points > t2.points then
      updateStat (updateStat tblP t1.roster_id (fun s => { s with wins := s.wins + 1 }))
        t2.roster_id (fun s => { s with losses := s.losses + 1 })
    else if t2.points > t1.points then
      updateStat (updateStat tblP t2.roster_id (fun s => { s with wins := s.wins + 1 }))
        t1.roster_id (fun s => { s with losses := s.losses + 1 })
    else
      updateStat (updateStat tblP t1.roster_id (fun s => { s with ties := s.ties + 1 }))
        t2.roster_id (fun s => { s with ties := s.ties + 1 })
  | _ => tbl

/-- The full `teamStats` computation over every week. -/
def teamStatsTable (matchups : List (Nat × List Matchup)) : StatTable :=
  matchups.foldl (fun tbl wm => (groupByMatchupId wm.2).foldl applyPairStats tbl)
    (fun _ => { wins := 0, losses := 0, ties := 0, pointsFor := 0, pointsAgainst := 0 })

/-- A standings row built from the matchup-derived stats of a roster
(points totals rounded to two decimals, provisional `rank: 0`). -/
def standingOfStats (users : List User) (tbl : StatTable) (roster : Roster) : TeamStanding :=
  { rosterId := roster.roster_id
    teamName := getTeamName users roster
    wins := (tbl roster.roster_id).wins
    losses := (tbl roster.roster_id).losses
    ties := (tbl roster.roster_id).ties
    pointsFor := round2 (tbl roster.roster_id).pointsFor
    pointsAgainst := round2 (tbl roster.roster_id).pointsAgainst
    rank := 0 }

/-- Standings re-derived from weekly matchup records
(`calculateStandingsFromMatchups`): accumulate stats per pairing, then
sort and rank exactly as `calculateStandings` does. -/
def calculateStandingsFromMatchups (users : List User) (matchups : List (Nat × List Matchup))
    (rosters : List Roster) : List TeamStanding :=
  assignRanksFrom 1 (List.insertionSort standingBefore
    (rosters.map (standingOfStats users (teamStatsTable matchups))))

/-! ### Roster timeline reconstructor (`undoTrade`, `createAlternateRosters`) -/

/-- In-place mutation of the first list entry matching a predicate (the
JS pattern `rosters.find(...)` followed by field assignment). -/
def modifyFirst (p : Roster → Bool) (f : Roster → Roster) : List Roster → List Roster
  | [] => []
  | r :: rs => if p r then f r :: rs else r :: modifyFirst p f rs

/-- Reversing an "adds" entry: remove the player from the receiving
roster's player list and starter list. -/
def removePlayerFromRoster (playerId : String) (r : Roster) : Roster :=
  { r with players := r.players.filter (fun q => q ≠ playerId),
           starters := r.starters.filter (fun q => q ≠ playerId) }

/-- Reversing a "drops" entry: push the player back onto the sending
roster's player list unless already present (starters are not restored). -/
def addPlayerBackToRoster (playerId : String) (r : Roster) : Roster :=
  if playerId ∈ r.players then r else { r with players := r.players ++ [playerId] }

/-- One iteration of the `adds` loop of `undoTrade`. -/
def undoTradeAddsStep (rs : List Roster) (e : String × Int) : List Roster :=
  modifyFirst (fun r => r.roster_id == e.2) (removePlayerFromRoster e.1) rs

/-- One iteration of the `drops` loop of `undoTrade`. -/
def undoTradeDropsStep (rs : List Roster) (e : String × Int) : List Roster :=
  modifyFirst (fun r => r.roster_id == e.2) (addPlayerBackToRoster e.1) rs

/-- Undoing one trade (`undoTrade`): first reverse every `adds` entry,
then every `drops` entry, in object-iteration order. -/
def undoTrade (rosters : List Roster) (trade : Trade) : List Roster :=
  (trade.drops.getD []).foldl undoTradeDropsStep
    ((trade.adds.getD []).foldl undoTradeAddsStep rosters)

/-- The `JSON.parse(JSON.stringify(...))` deep copy of one roster: a
fresh object with structurally equal plain-data fields. -/
def deepCopyRoster (r : Roster) : Roster :=
  { roster_id := r.roster_id
    owner_id := r.owner_id
    players := r.players
    starters := r.starters
    settings :=
      { wins := r.settings.wins
        losses := r.settings.losses
        ties := r.settings.ties
        fpts := r.settings.fpts
        fpts_against := r.settings.fpts_against } }

/-- Deep copy of the whole roster list. -/
def deepCopyRosters (rs : List Roster) : List Roster := rs.map deepCopyRoster

/-- The trade sort comparator `(a, b) => b.status_updated -
a.status_updated` (most recent first), as a "comes before" relation. -/
def tradeMoreRecent (a b : Trade) : Prop := b.status_updated ≤ a.status_updated

instance : DecidableRel tradeMoreRecent := fun a b => by
  unfold tradeMoreRecent; infer_instance

/-- Building the alternate-timeline rosters (`createAlternateRosters`):
deep-copy the current rosters, then undo the selected trades most recent
first. -/
def createAlternateRosters (originalRosters : List Roster) (tradesToUndo : List Trade) : List Roster :=
  (List.insertionSort tradeMoreRecent tradesToUndo).foldl undoTrade (deepCopyRosters originalRosters)

/-! ### Matchup re-simulation (`calculateSimulatedPoints`,
`simulateMatchupsWithAlternateRosters`) -/

/-- Per-player score lookup `matchup.players_points?.[playerId] || 0`. -/
def playerPointsIn (m : Matchup) (playerId : String) : ℚ :=
  match m.players_points with
  | some pp => (pp.lookup playerId).getD 0
  | none => 0

/-- The point-delta heuristic (`calculateSimulatedPoints`): add the
original box-score points of players gained in the alternate timeline,
subtract those of players lost, clamp at zero. -/
def calculateSimulatedPoints (originalRosters : List Roster) (originalMatchup : Matchup)
    (alternateRoster : Roster) : ℚ :=
  let originalPlayers :=
    ((originalRosters.find? (fun r => r.roster_id == alternateRoster.roster_id)).map
      (fun r => r.players)).getD []
  let alternatePlayers := alternateRoster.players
  let gainedPlayers := alternatePlayers.filter (fun p => !(originalPlayers.contains p))
  let lostPlayers := originalPlayers.filter (fun p => !(alternatePlayers.contains p))
  let adjAfterGains := gainedPlayers.foldl (fun acc p => acc + playerPointsIn originalMatchup p) 0
  let adj := lostPlayers.foldl (fun acc p => acc - playerPointsIn originalMatchup p) adjAfterGains
  max 0 (originalMatchup.points + adj)

/-- Re-simulating every week (`simulateMatchupsWithAlternateRosters`):
a matchup whose roster has an alternate entry gets the heuristic score;
a matchup without one passes through unchanged. -/
def simulateMatchupsWithAlternateRosters (originalRosters : List Roster)
    (allMatchups : List (Nat × List Matchup)) (alternateRosters : List Roster) :
    List (Nat × List Matchup) :=
  allMatchups.map (fun wm =>
    (wm.1, wm.2.map (fun m =>
      match alternateRosters.find? (fun r => r.roster_id == m.roster_id) with
      | none => m
      | some alt => { m with points := calculateSimulatedPoints originalRosters m alt })))

/-! ### Weekly impact (`calculateWeeklyImpact`, `getMatchupResult`) -/

/-- Win/loss/tie of one matchup against its pairing opponent
(`getMatchupResult`); a matchup with no opponent entry reports a loss. -/
def getMatchupResult (m : Matchup) (allMs : List Matchup) : MatchResult :=
  match allMs.find? (fun x => x.matchup_id == m.matchup_id && x.roster_id != m.roster_id) with
  | none => MatchResult.L
  | some opp =>
    if m.points > opp.points then MatchResult.W
    else if m.points < opp.points then MatchResult.L
    else MatchResult.T

/-- Team display name resolved through the original roster list
(`getTeamNameByRosterId`). -/
def getTeamNameByRosterId (users : List User) (originalRosters : List Roster) (rid : Int) : String :=
  match originalRosters.find? (fun r => r.roster_id == rid) with
  | some r => getTeamName users r
  | none => "Team " ++ toString rid

/-- The per-team entry of one week's impact report: a simulated matchup
with no corresponding original matchup is reported with zero original
points and a loss on both sides. -/
def weeklyTeamImpact (users : List User) (originalRosters : List Roster)
    (originalMatchups : List Matchup) (simWeekMatchups : List Matchup) (sm : Matchup) :
    TeamWeeklyImpact :=
  match originalMatchups.find? (fun m => m.roster_id == sm.roster_id) with
  | none =>
    { rosterId := sm.roster_id
      teamName := getTeamNameByRosterId users originalRosters sm.roster_id
      originalPoints := 0
      simulatedPoints := sm.points
      difference := sm.points
      originalResult := MatchResult.L
      simulatedResult := MatchResult.L }
  | some om =>
    { rosterId := sm.roster_id
      teamName := getTeamNameByRosterId users originalRosters sm.roster_id
      originalPoints := round2 om.points
      simulatedPoints := round2 sm.points
      difference := round2 (sm.points - om.points)
      originalResult := getMatchupResult om originalMatchups
      simulatedResult := getMatchupResult sm simWeekMatchups }

/-- The final sort of the impact list `(a, b) => a.week - b.week`. -/
def weekBefore (a b : WeeklyImpact) : Prop := a.week ≤ b.week

instance : DecidableRel weekBefore := fun a b => by
  unfold weekBefore; infer_instance

/-- The weekly impact report (`calculateWeeklyImpact`). -/
def calculateWeeklyImpact (users : List User) (originalRosters : List Roster)
    (allMatchups : List (Nat × List Matchup)) (simulatedMatchups : List (Nat × List Matchup)) :
    List WeeklyImpact :=
  List.insertionSort weekBefore (simulatedMatchups.map (fun wm =>
    { week := wm.1
      teamImpacts := wm.2.map
        (weeklyTeamImpact users originalRosters ((allMatchups.lookup wm.1).getD []) wm.2) }))

/-! ### Orchestrator (`simulateUndoTrades`, `getAffectedTeams`) -/

/-- The affected-team list: roster ids of every undone trade, stringified
and deduplicated in first-appearance order (JS `Set` insertion order). -/
def getAffectedTeams (trades : List Trade) : List String :=
  trades.foldl (fun acc t =>
    t.roster_ids.foldl (fun acc2 rid =>
      if toString rid ∈ acc2 then acc2 else acc2 ++ [toString rid]) acc) []

/-- The simulation orchestrator (`simulateUndoTrades`); the weekly
matchup record fetched from the API is passed as `allMatchups`. -/
def simulateUndoTrades (rosters : List Roster) (users : List User)
    (allMatchups : List (Nat × List Matchup)) (tradesToUndo : List Trade) :
    TradeSimulationResult :=
  let simulatedRosters := createAlternateRosters rosters tradesToUndo
  let originalStandings := calculateStandings users rosters
  let simulatedMatchups := simulateMatchupsWithAlternateRosters rosters allMatchups simulatedRosters
  let simulatedStandings := calculateStandingsFromMatchups users simulatedMatchups simulatedRosters
  let weeklyImpact := calculateWeeklyImpact users rosters allMatchups simulatedMatchups
  let affectedTeams := getAffectedTeams tradesToUndo
  { originalStandings := originalStandings
    simulatedStandings := simulatedStandings
    weeklyImpact := weeklyImpact
    affectedTeams := affectedTeams }

/-! ### Heap model of `createAlternateRosters`

The source mutates roster objects in place; the deep copy is what keeps
the caller's original rosters intact.  To state that as a theorem the
embedding models object identity explicitly: a heap is a list of roster
cells, a roster set is a list of cell references, the deep copy allocates
fresh cells, and `undoTrade`'s mutations write through references. -/

/-- A heap of roster objects; a reference is an index into the heap. -/
abbrev RosterHeap := List Roster

/-- Mutating, through the heap, the first referenced roster matching a
predicate (the heap-level counterpart of `modifyFirst`). -/
def modifyFirstRef (refs : List Nat) (p : Roster → Bool) (f : Roster → Roster)
    (heap : RosterHeap) : RosterHeap :=
  match refs with
  | [] => heap
  | i :: rest =>
    if p (heap.getD i default) then heap.set i (f (heap.getD i default))
    else modifyFirstRef rest p f heap

/-- Heap-level `undoTrade`, acting on the rosters referenced by
`altRefs`. -/
def undoTradeOnHeap (altRefs : List Nat) (heap : RosterHeap) (trade : Trade) : RosterHeap :=
  (trade.drops.getD []).foldl
    (fun h e => modifyFirstRef altRefs (fun r => r.roster_id == e.2) (addPlayerBackToRoster e.1) h)
    ((trade.adds.getD []).foldl
      (fun h e => modifyFirstRef altRefs (fun r => r.roster_id == e.2) (removePlayerFromRoster e.1) h)
      heap)

/-- Heap-level `createAlternateRosters`: append deep copies of the
referenced current rosters as fresh cells, then undo the trades (most
recent first) through the fresh references only.  Returns the final heap
and the alternate-roster references. -/
def createAlternateRostersOnHeap (heap : RosterHeap) (origRefs : List Nat)
    (tradesToUndo : List Trade) : RosterHeap × List Nat :=
  let base := heap.length
  let heapWithCopies := heap ++ origRefs.map (fun i => deepCopyRoster (heap.getD i default))
  let altRefs := List.range' base origRefs.length
  ((List.insertionSort tradeMoreRecent tradesToUndo).foldl (undoTradeOnHeap altRefs) heapWithCopies,
   altRefs)

/-! ### Draft-pick provenance resolver (trade-selector component)

The embedding follows the complete revision of the trade-selector
component.  Season years appear in the source as decimal-numeral strings,
compared both by string equality and by `parseInt` value; they are
modelled by their numeric value, on which the two comparisons agree. -/

/-- A player-directory entry (`PlayerInfo`). -/
structure PlayerInfo where
  full_name : String
  position : String
deriving Repr, DecidableEq, Inhabited

/-- A draft header (`DraftInfo`). -/
structure DraftInfo where
  draft_id : String
deriving Repr, DecidableEq, Inhabited

/-- One selection of a completed draft (`DraftPickDetail`). -/
structure DraftPickDetail where
  pick_no : Int
  player_id : Option String
deriving Repr, DecidableEq, Inhabited

/-- A traded draft-pick reference (`DraftPick`): season-year, round, and
the owner-identifying fields appearing under several historical names. -/
structure DraftPick where
  season : Int
  round : Int
  roster_id : Int
  owner_id : Option Int
  previous_owner_id : Option Int
  original_owner : Option Int
deriving Repr, DecidableEq, Inhabited

/-- One season's loaded data (`crossSeasonData[season]`). -/
structure SeasonBundle where
  rosters : List Roster
  users : List User
  drafts : List DraftInfo
  draftPicks : List (String × List DraftPickDetail)
deriving Repr, DecidableEq, Inhabited

/-- JS truthiness of a possibly-missing number (`0` and `undefined` are
falsy). -/
def intTruthy : Option Int → Bool
  | some v => v != 0
  | none => false

/-- JS `a || b` on possibly-missing numbers. -/
def jsOrInt (a b : Option Int) : Option Int := if intTruthy a then a else b

/-- JS truthiness of a possibly-missing string (`""` and `undefined` are
falsy). -/
def strOptTruthy : Option String → Bool
  | some s => s != ""
  | none => false

/-- Player display name (`getPlayerName`):
`"<full name> (<position>)"`, or `"Player <id>"` when the player is not
in the directory. -/
def getPlayerName (players : List (String × PlayerInfo)) (playerId : String) : String :=
  match players.lookup playerId with
  | none => "Player " ++ playerId
  | some p => p.full_name ++ " (" ++ p.position ++ ")"

/-- The sort relation of `calculateRankFromRecord`: wins descending (with
missing fields read as `|| 0`), tie-broken by points-for descending. -/
def rosterRecordBefore (a b : Roster) : Prop :=
  jsInt b.settings.wins < jsInt a.settings.wins ∨
    (jsInt a.settings.wins = jsInt b.settings.wins ∧ jsRat b.settings.fpts ≤ jsRat a.settings.fpts)

instance : DecidableRel rosterRecordBefore := fun a b => by
  unfold rosterRecordBefore; infer_instance

/-- Final rank of a roster within its season (`calculateRankFromRecord`):
1-based position in the sorted copy, `0` when the roster is absent (JS
`findIndex` returns `-1`). -/
def calculateRankFromRecord (roster : Roster) (allRosters : List Roster) : Nat :=
  match (List.insertionSort rosterRecordBefore allRosters).findIdx?
      (fun r => r.roster_id == roster.roster_id) with
  | some i => i + 1
  | none => 0

/-- JS `n.toString().padStart(2, '0')` applied to a number's decimal
rendering. -/
def padStart2 (s : String) : String :=
  if s.length < 2 then String.mk (List.replicate (2 - s.length) '0') ++ s else s

/-- The `inferredPickNumber` label `"<round>.<slot padded to 2 digits>"`.
The source stores this string and later recovers `(round, slot)` from it
with `split('.')` and `parseInt`, which exactly invert this formatting;
the embedding therefore carries the pair alongside and renders it here. -/
def pickNumberString (roundN slot : Int) : String :=
  toString roundN ++ "." ++ padStart2 (toString slot)

/-- Ordinal suffix of the round number. -/
def roundSuffix (round : Int) : String :=
  if round = 1 then "st" else if round = 2 then "nd" else if round = 3 then "rd" else "th"

/-- The round-only fallback label `"<season> <round><suffix> Round Pick"`. -/
def roundOnlyLabel (pick : DraftPick) : String :=
  toString pick.season ++ " " ++ toString pick.round ++ roundSuffix pick.round ++ " Round Pick"

/-- The draft-pick resolver (`formatDraftPick`).  `crossSeasonData` is
the per-year bundle map of loaded seasons. -/
def formatDraftPick (crossSeasonData : Int → Option SeasonBundle)
    (players : List (String × PlayerInfo)) (pick : DraftPick) : String :=
  let originalOwnerId := jsOrInt pick.original_owner pick.previous_owner_id
  let pickSeasonData := crossSeasonData pick.season
  let standingsSeasonForDraft := pick.season - 1
  match crossSeasonData standingsSeasonForDraft with
  | none => roundOnlyLabel pick
  | some standingsData =>
    if standingsData.rosters.length == 0 then roundOnlyLabel pick
    else
      -- Owner resolution; `none` corresponds to the source leaving
      -- `originalOwnerName = 'Unknown'` and `inferredPickNumber = ''`.
      let resolved : Option (String × Int) :=
        match originalOwnerId with
        | some oid =>
          if oid ≠ 0 then
            match standingsData.rosters.find? (fun r => r.roster_id == oid) with
            | some originalRoster =>
              match standingsData.users.find? (fun u => u.user_id == originalRoster.owner_id) with
              | some originalUser =>
                some (jsOrString originalUser.display_name originalUser.username,
                  (standingsData.rosters.length : Int) -
                    (calculateRankFromRecord originalRoster standingsData.rosters : Int) + 1)
              | none => none
            | none => none
          else none
        | none => none
      let originalOwnerName := (resolved.map (fun x => x.1)).getD "Unknown"
      let selectedPlayer : String :=
        match pickSeasonData, resolved with
        | some psd, some rp =>
          match psd.drafts with
          | draft :: _ =>
            let picksForSeason := (psd.draftPicks.lookup draft.draft_id).getD []
            if picksForSeason.length > 0 then
              let totalTeams : Int := standingsData.rosters.length
              let overallPickNumber := (pick.round - 1) * totalTeams + rp.2
              match picksForSeason.find? (fun p => p.pick_no == overallPickNumber) with
              | some selectedPick =>
                if strOptTruthy selectedPick.player_id then
                  getPlayerName players (selectedPick.player_id.getD "")
                else ""
              | none => ""
            else ""
          | [] => ""
        | _, _ => ""
      match resolved with
      | some rp =>
        if selectedPlayer ≠ "" then
          roundOnlyLabel pick ++ " (" ++ pickNumberString pick.round rp.2 ++ " - " ++
            selectedPlayer ++ ")"
        else if originalOwnerName ≠ "Unknown" then
          roundOnlyLabel pick ++ " (" ++ pickNumberString pick.round rp.2 ++ " - from " ++
            originalOwnerName ++ ")"
        else
          roundOnlyLabel pick ++ " (" ++ pickNumberString pick.round rp.2 ++ ")"
      | none => roundOnlyLabel pick

/-! ### League season chain resolver (`findLeagueIdForSeason`) -/

/-- One enumerated season of a consolidated league (the fields of
`SleeperLeague` the resolver reads). -/
structure LeagueSeason where
  league_id : String
  season : Int
  previous_league_id : Option String
deriving Repr, DecidableEq, Inhabited

/-- A consolidated league (`ConsolidatedLeague`): the enumerated season
list and the most recent season. -/
structure ConsolidatedLeague where
  seasons : List LeagueSeason
  mostRecentSeason : LeagueSeason
deriving Repr, DecidableEq, Inhabited

/-- The season-chain resolver (`findLeagueIdForSeason`): exact year
match; else, for the year immediately preceding the most recent season,
that season's `previous_league_id`; else a backward chain walk over the
enumerated seasons; else not-found (`null`). -/
def findLeagueIdForSeason (league : ConsolidatedLeague) (season : Int) : Option String :=
  match league.seasons.find? (fun s => s.season == season) with
  | some targetSeason => some targetSeason.league_id
  | none =>
    let currentYear := league.mostRecentSeason.season
    let targetYear := season
    if targetYear == currentYear - 1 && strOptTruthy league.mostRecentSeason.previous_league_id then
      league.mostRecentSeason.previous_league_id
    else
      match league.seasons.find?
          (fun s => s.season == targetYear + 1 && strOptTruthy s.previous_league_id) with
      | some leagueSeason => leagueSeason.previous_league_id
      | none => none

/-- The season-chain algorithm as amended from the spec's words: (1) an
exact year match returns that season's identifier; (2) a year exactly one
less than the most recent season's year, when the most recent season
carries a previous-season identifier, returns that identifier; (3) an
enumerated season whose year equals `year + 1` and which carries a
previous-season identifier returns that identifier; (4) otherwise
not-found, as a normal outcome. -/
def findLeagueIdForSeasonSpec (league : ConsolidatedLeague) (year : Int) : Option String :=
  ((league.seasons.find? (fun s => s.season == year)).map (fun s => s.league_id)).orElse fun _ =>
    ((if year = league.mostRecentSeason.season - 1 then
        league.mostRecentSeason.previous_league_id.filter (fun s => s ≠ "")
      else none).orElse fun _ =>
      (league.seasons.find? (fun s => s.season == year + 1 && strOptTruthy s.previous_league_id)).bind
        (fun s => s.previous_league_id))

/-- The effect of one `adds` entry on one roster: when the entry targets
this roster, remove the player; otherwise leave the roster unchanged.
Used to relate `undoTrade`'s first-match mutation to a per-roster view
when roster ids are distinct (as the data model guarantees). -/
def applyAddsEntry (e : String × Int) (r : Roster) : Roster :=
  if r.roster_id == e.2 then removePlayerFromRoster e.1 r else r

/-- The effect of one `drops` entry on one roster (see `applyAddsEntry`). -/
def applyDropsEntry (e : String × Int) (r : Roster) : Roster :=
  if r.roster_id == e.2 then addPlayerBackToRoster e.1 r else r

/-- The whole effect of undoing one trade on one roster: every `adds`
entry, then every `drops` entry.  Equals `undoTrade` applied pointwise
when roster ids are distinct. -/
def undoTradeOnRoster (trade : Trade) (r : Roster) : Roster :=
  (trade.drops.getD []).foldl (fun r e => applyDropsEntry e r)
    ((trade.adds.getD []).foldl (fun r e => applyAddsEntry e r) r)

/-- The point adjustment as the spec words it: the original matchup's
recorded per-player points summed over players gained (present in the
alternate roster, absent from the original player list) minus the same
sum over players lost (present originally, absent from the alternate
roster).  Compared against the fold inside `calculateSimulatedPoints`. -/
def pointsAdjustmentSpec (originalRosters : List Roster) (m : Matchup) (alt : Roster) : ℚ :=
  let originalPlayers :=
    ((originalRosters.find? (fun r => r.roster_id == alt.roster_id)).map
      (fun r => r.players)).getD []
  ((alt.players.filter (fun p => !(originalPlayers.contains p))).map (playerPointsIn m)).sum -
    ((originalPlayers.filter (fun p => !(alt.players.contains p))).map (playerPointsIn m)).sum

/-! ### Concrete instances used by witnesses and counterexamples -/

/-- All-zero season stats. -/
def zeroSettings : RosterSettings :=
  { wins := some 0, losses := some 0, ties := some 0, fpts := some 0, fpts_against := some 0 }

/-- A roster whose stored record (1 win) is inconsistent with an empty
matchup history. -/
def c1BadRoster : Roster :=
  { roster_id := 1, owner_id := "", players := [], starters := [],
    settings := { wins := some 1, losses := some 0, ties := some 0, fpts := some 0, fpts_against := some 0 } }

/-- A roster whose stored record matches its matchup history (one 100-90
win). -/
def c1GoodRosterA : Roster :=
  { roster_id := 1, owner_id := "", players := [], starters := [],
    settings := { wins := some 1, losses := some 0, ties := some 0, fpts := some 100, fpts_against := some 90 } }

/-- A roster whose stored record matches its matchup history (one 100-90
loss). -/
def c1GoodRosterB : Roster :=
  { roster_id := 2, owner_id := "", players := [], starters := [],
    settings := { wins := some 0, losses := some 1, ties := some 0, fpts := some 90, fpts_against := some 100 } }

/-- Week-1 matchup of roster 1 (100 points). -/
def c1MatchupA : Matchup := { roster_id := 1, matchup_id := 1, points := 100, players_points := some [] }

/-- Week-1 matchup of roster 2 (90 points). -/
def c1MatchupB : Matchup := { roster_id := 2, matchup_id := 1, points := 90, players_points := some [] }

/-- The one-week matchup history pairing the two rosters above. -/
def c1Matchups : List (Nat × List Matchup) := [(1, [c1MatchupA, c1MatchupB])]

/-- A matchup with a negative recorded point total. -/
def c3NegMatchup : Matchup := { roster_id := 1, matchup_id := 1, points := -5, players_points := none }

/-- A one-roster set for the idempotence counterexample. -/
def c5Roster : Roster :=
  { roster_id := 1, owner_id := "", players := [], starters := [], settings := zeroSettings }

/-- A degenerate trade whose adds and drops share the pair (player `P`,
roster 1), with a second drop entry to the same roster. -/
def c5BadTrade : Trade :=
  { transaction_id := "t1", status_updated := 0, roster_ids := [1],
    adds := some [("P", 1)], drops := some [("P", 1), ("Q", 1)] }

/-- Roster 1 holding players `P1`, `P2`. -/
def c5RosterA : Roster :=
  { roster_id := 1, owner_id := "", players := ["P1", "P2"], starters := ["P1"], settings := zeroSettings }

/-- Roster 2 holding player `P3`. -/
def c5RosterB : Roster :=
  { roster_id := 2, owner_id := "", players := ["P3"], starters := ["P3"], settings := zeroSettings }

/-- A well-formed trade that moved `P1` from roster 2 to roster 1. -/
def c5GoodTrade : Trade :=
  { transaction_id := "t2", status_updated := 0, roster_ids := [1, 2],
    adds := some [("P1", 1)], drops := some [("P1", 2)] }

/-- The 2023 standings-season roster that finished first (5 wins). -/
def c6RosterTop : Roster :=
  { roster_id := 1, owner_id := "o1", players := [], starters := [],
    settings := { wins := some 5, losses := some 0, ties := some 0, fpts := none, fpts_against := none } }

/-- The 2023 standings-season roster that finished last (3 wins). -/
def c6RosterBottom : Roster :=
  { roster_id := 2, owner_id := "o2", players := [], starters := [],
    settings := { wins := some 3, losses := some 0, ties := some 0, fpts := none, fpts_against := none } }

/-- The owner of the last-place 2023 roster. -/
def c6UserBottom : User := { user_id := "o2", username := "bob", display_name := "Bob" }

/-- The 2023 season bundle (standings year of a 2024 pick). -/
def c6StandingsBundle : SeasonBundle :=
  { rosters := [c6RosterTop, c6RosterBottom], users := [c6UserBottom], drafts := [], draftPicks := [] }

/-- The 2024 season bundle with a completed two-pick draft. -/
def c6PickBundle : SeasonBundle :=
  { rosters := [], users := [],
    drafts := [{ draft_id := "d1" }],
    draftPicks := [("d1", [{ pick_no := 1, player_id := some "pl1" },
                           { pick_no := 2, player_id := some "pl2" }])] }

/-- Cross-season data holding the 2023 and 2024 bundles. -/
def c6Data : Int → Option SeasonBundle := fun y =>
  if y = 2023 then some c6StandingsBundle else if y = 2024 then some c6PickBundle else none

/-- A player directory knowing the first overall 2024 selection. -/
def c6Players : List (String × PlayerInfo) :=
  [("pl1", { full_name := "John Smith", position := "QB" })]

/-- A 2024 first-round pick originally owned (via `previous_owner_id`)
by roster 2. -/
def c6Pick : DraftPick :=
  { season := 2024, round := 1, roster_id := 0, owner_id := none,
    previous_owner_id := some 2, original_owner := none }

/-- A 2024 first-round pick whose only populated owner field is its own
`roster_id` (which points at a resolvable roster). -/
def c7RosterFieldPick : DraftPick :=
  { season := 2024, round := 1, roster_id := 2, owner_id := none,
    previous_owner_id := none, original_owner := none }

/-- A one-season league history whose most recent season is 2023. -/
def c8League : ConsolidatedLeague :=
  { seasons := [{ league_id := "L23", season := 2023, previous_league_id := none }],
    mostRecentSeason := { league_id := "L23", season := 2023, previous_league_id := none } }

/-- A 2024 second-round pick. -/
def c9Pick : DraftPick :=
  { season := 2024, round := 2, roster_id := 0, owner_id := none,
    previous_owner_id := none, original_owner := none }

/-- Cross-season data with no bundle loaded at all. -/
def c9Data : Int → Option SeasonBundle := fun _ => none

/-- A lone matchup (its pairing has no opponent entry). -/
def c10Matchup : Matchup := { roster_id := 1, matchup_id := 1, points := 10, players_points := none }

/-! ## Supporting lemmas -/

theorem assignRanksFrom_map_rank (n : Nat) (l : List TeamStanding) :
    (assignRanksFrom n l).map (fun t => t.rank) = List.range' n l.length := by
  induction l generalizing n with
  | nil => rfl
  | cons t ts ih => simp [assignRanksFrom, List.range'_succ, ih]

theorem assignRanksFrom_chain' {P : TeamStanding → TeamStanding → Prop}
    (hP : ∀ a b m k, P a b → P { a with rank := m } { b with rank := k }) :
    ∀ (n : Nat) (l : List TeamStanding), List.Chain' P l → List.Chain' P (assignRanksFrom n l)
  | _, [], _ => List.chain'_nil
  | n, a :: l, h => by
    rcases List.chain'_cons'.1 h with ⟨hhead, htail⟩
    refine List.chain'_cons'.2 ⟨?_, assignRanksFrom_chain' hP (n + 1) l htail⟩
    intro y hy
    cases l with
    | nil => simp [assignRanksFrom] at hy
    | cons b l' =>
      simp only [assignRanksFrom, List.head?_cons, Option.mem_def, Option.some.injEq] at hy
      subst hy
      exact hP a b n (n + 1) (hhead b rfl)

theorem length_insertionSort {α : Type} (r : α → α → Prop) [DecidableRel r] (l : List α) :
    (List.insertionSort r l).length = l.length :=
  (List.perm_insertionSort r l).length_eq

theorem length_standingsOfRostersFrom (users : List User) (n : Nat) (rosters : List Roster) :
    (standingsOfRostersFrom users n rosters).length = rosters.length := by
  induction rosters generalizing n with
  | nil => rfl
  | cons r rs ih => simp [standingsOfRostersFrom, ih]

/-! ## C2 — standings order invariant and rank permutation -/

/-- C2.  For every user list and every input roster list of length N
(missing numeric fields defaulting to zero via `jsInt`/`jsRat`), the
standings calculator returns a list in which every adjacent pair (i, i+1)
satisfies `wins[i] >= wins[i+1]`, and `pointsFor[i] >= pointsFor[i+1]`
whenever the wins are equal; and the rank fields of the output are
exactly 1..N in list order, with no gaps or duplicates. -/
theorem calculateStandings_sorted_and_ranked (users : List User) (rosters : List Roster) :
    List.Chain'
      (fun a b => b.wins ≤ a.wins ∧ (a.wins = b.wins → b.pointsFor ≤ a.pointsFor))
      (calculateStandings users rosters) ∧
    (calculateStandings users rosters).map (fun t => t.rank) = List.range' 1 rosters.length := by
  constructor
  · have hsorted := List.sorted_insertionSort standingBefore (standingsOfRostersFrom users 1 rosters)
    have hchain : List.Chain'
        (fun a b => b.wins ≤ a.wins ∧ (a.wins = b.wins → b.pointsFor ≤ a.pointsFor))
        (List.insertionSort standingBefore (standingsOfRostersFrom users 1 rosters)) := by
      refine List.Chain'.imp ?_ (List.Pairwise.chain' hsorted)
      intro a b hab
      rcases hab with h | ⟨h1, h2⟩
      · exact ⟨le_of_lt h, fun he => absurd (he ▸ h) (lt_irrefl _)⟩
      · exact ⟨le_of_eq h1.symm, fun _ => h2⟩
    exact assignRanksFrom_chain' (fun a b m k h => h) 1 _ hchain
  · rw [calculateStandings, assignRanksFrom_map_rank, length_insertionSort,
      length_standingsOfRostersFrom]

/-! ## C1 — no-op simulation -/

theorem deepCopyRoster_eq (r : Roster) : deepCopyRoster r = r := by
  cases r with
  | mk a b c d s => cases s; rfl

theorem deepCopyRosters_eq (rs : List Roster) : deepCopyRosters rs = rs := by
  unfold deepCopyRosters
  rw [List.map_congr_left (fun a _ => deepCopyRoster_eq a)]
  exact List.map_id rs

theorem createAlternateRosters_nil (rs : List Roster) : createAlternateRosters rs [] = rs := by
  simp [createAlternateRosters, List.insertionSort, deepCopyRosters_eq]

theorem matchup_set_points_self (m : Matchup) : { m with points := m.points } = m := by
  cases m; rfl

theorem calculateSimulatedPoints_self (rosters : List Roster) (m : Matchup) (r : Roster)
    (hfind : rosters.find? (fun x => x.roster_id == r.roster_id) = some r)
    (hpts : 0 ≤ m.points) : calculateSimulatedPoints rosters m r = m.points := by
  unfold calculateSimulatedPoints
  rw [hfind]
  have hgain : r.players.filter (fun p => !(r.players.contains p)) = [] := by
    rw [List.filter_eq_nil_iff]
    intro a ha
    simp [List.elem_iff, ha]
  simp only [Option.map_some', Option.getD_some, hgain, List.foldl_nil, add_zero]
  exact max_eq_right hpts

theorem simulateMatchups_self (rosters : List Roster) (allMatchups : List (Nat × List Matchup))
    (hpts : ∀ wm ∈ allMatchups, ∀ m ∈ wm.2, 0 ≤ m.points) :
    simulateMatchupsWithAlternateRosters rosters allMatchups rosters = allMatchups := by
  unfold simulateMatchupsWithAlternateRosters
  have : ∀ wm ∈ allMatchups,
      (wm.1, wm.2.map (fun m =>
        match rosters.find? (fun r => r.roster_id == m.roster_id) with
        | none => m
        | some alt => { m with points := calculateSimulatedPoints rosters m alt })) = wm := by
    intro wm hwm
    have hpoint : ∀ m ∈ wm.2,
        (match rosters.find? (fun r => r.roster_id == m.roster_id) with
          | none => m
          | some alt => { m with points := calculateSimulatedPoints rosters m alt }) = m := by
      intro m hm
      cases hfind : rosters.find? (fun r => r.roster_id == m.roster_id) with
      | none => rfl
      | some alt =>
        have halt : alt.roster_id = m.roster_id := by
          have := List.find?_some hfind
          simpa using this
        have hfind' : rosters.find? (fun x => x.roster_id == alt.roster_id) = some alt := by
          rw [halt]; exact hfind
        simp only
        rw [calculateSimulatedPoints_self rosters m alt hfind' (hpts wm hwm m hm)]
    have hinner : wm.2.map (fun m =>
        match rosters.find? (fun r => r.roster_id == m.roster_id) with
        | none => m
        | some alt => { m with points := calculateSimulatedPoints rosters m alt }) = wm.2 := by
      rw [List.map_congr_left hpoint]
      exact List.map_id wm.2
    rw [hinner]
  rw [List.map_congr_left this]
  exact List.map_id allMatchups

/-- Setting the provisional rank of a row to zero (the shape difference
between settings-derived and matchup-derived pre-sort rows). -/
def eraseRank (t : TeamStanding) : TeamStanding := { t with rank := 0 }

theorem standingBefore_eraseRank (a b : TeamStanding) :
    standingBefore (eraseRank a) (eraseRank b) ↔ standingBefore a b := Iff.rfl

theorem orderedInsert_map_eraseRank (a : TeamStanding) (l : List TeamStanding) :
    List.orderedInsert standingBefore (eraseRank a) (l.map eraseRank) =
      (List.orderedInsert standingBefore a l).map eraseRank := by
  induction l with
  | nil => rfl
  | cons b t ih =>
    by_cases h : standingBefore a b
    · rw [List.map_cons, List.orderedInsert, if_pos ((standingBefore_eraseRank a b).2 h),
        List.orderedInsert, if_pos h]
      rfl
    · rw [List.map_cons, List.orderedInsert,
        if_neg (fun hc => h ((standingBefore_eraseRank a b).1 hc)),
        List.orderedInsert, if_neg h, List.map_cons, ih]

theorem insertionSort_map_eraseRank (l : List TeamStanding) :
    List.insertionSort standingBefore (l.map eraseRank) =
      (List.insertionSort standingBefore l).map eraseRank := by
  induction l with
  | nil => rfl
  | cons a t ih =>
    show List.orderedInsert standingBefore (eraseRank a)
        (List.insertionSort standingBefore (t.map eraseRank)) = _
    rw [ih, orderedInsert_map_eraseRank]
    rfl

theorem assignRanksFrom_map_eraseRank (n : Nat) (l : List TeamStanding) :
    assignRanksFrom n (l.map eraseRank) = assignRanksFrom n l := by
  induction l generalizing n with
  | nil => rfl
  | cons t ts ih =>
    have : ({ eraseRank t with rank := n } : TeamStanding) = { t with rank := n } := by
      cases t; rfl
    simp [assignRanksFrom, this, ih]

theorem statsRows_eq_settingsRows (users : List User) (tbl : StatTable) :
    ∀ (n : Nat) (rosters : List Roster),
      (∀ r ∈ rosters,
        jsInt r.settings.wins = (tbl r.roster_id).wins ∧
        jsInt r.settings.losses = (tbl r.roster_id).losses ∧
        jsInt r.settings.ties = (tbl r.roster_id).ties ∧
        jsRat r.settings.fpts = round2 (tbl r.roster_id).pointsFor ∧
        jsRat r.settings.fpts_against = round2 (tbl r.roster_id).pointsAgainst) →
      rosters.map (standingOfStats users tbl) =
        (standingsOfRostersFrom users n rosters).map eraseRank
  | _, [], _ => rfl
  | n, r :: rs, h => by
    have hr := h r (List.mem_cons_self r rs)
    have hhead : standingOfStats users tbl r = eraseRank (standingOfRoster users r n) := by
      rcases hr with ⟨h1, h2, h3, h4, h5⟩
      simp [standingOfStats, standingOfRoster, eraseRank, h1, h2, h3, h4, h5]
    rw [List.map_cons, standingsOfRostersFrom, List.map_cons, hhead,
      statsRows_eq_settingsRows users tbl (n + 1) rs
        (fun x hx => h x (List.mem_cons_of_mem r hx))]

/-- C1 (amended).  When the roster season-stat fields are consistent with
the weekly matchup records (each roster's stored wins/losses/ties equal
the matchup-derived tallies and its stored points equal the two-decimal
rounding of the matchup-derived totals) and no recorded matchup has a
negative point total, running the simulation with an empty set of trades
to undo yields `simulatedStandings` equal to `originalStandings` (as
lists, hence set-equal) and an empty `affectedTeams` list. -/
theorem noop_simulation_of_consistent_stats (users : List User) (rosters : List Roster)
    (allMatchups : List (Nat × List Matchup))
    (hpts : ∀ wm ∈ allMatchups, ∀ m ∈ wm.2, 0 ≤ m.points)
    (hcons : ∀ r ∈ rosters,
      jsInt r.settings.wins = (teamStatsTable allMatchups r.roster_id).wins ∧
      jsInt r.settings.losses = (teamStatsTable allMatchups r.roster_id).losses ∧
      jsInt r.settings.ties = (teamStatsTable allMatchups r.roster_id).ties ∧
      jsRat r.settings.fpts = round2 (teamStatsTable allMatchups r.roster_id).pointsFor ∧
      jsRat r.settings.fpts_against = round2 (teamStatsTable allMatchups r.roster_id).pointsAgainst) :
    (simulateUndoTrades rosters users allMatchups []).simulatedStandings =
      (simulateUndoTrades rosters users allMatchups []).originalStandings ∧
    (simulateUndoTrades rosters users allMatchups []).affectedTeams = [] := by
  constructor
  · show calculateStandingsFromMatchups users
        (simulateMatchupsWithAlternateRosters rosters allMatchups (createAlternateRosters rosters []))
        (createAlternateRosters rosters []) = calculateStandings users rosters
    rw [createAlternateRosters_nil, simulateMatchups_self rosters allMatchups hpts]
    unfold calculateStandingsFromMatchups calculateStandings
    rw [statsRows_eq_settingsRows users (teamStatsTable allMatchups) 1 rosters hcons,
      insertionSort_map_eraseRank, assignRanksFrom_map_eraseRank]
  · rfl

/-- C1 counterexample.  For a dataset whose roster stats disagree with
the (empty) matchup history, the no-op simulation's `simulatedStandings`
is not even set-equal to `originalStandings`: the claim fails without a
consistency hypothesis. -/
theorem noop_simulation_counterexample :
    ¬ ((simulateUndoTrades [c1BadRoster] [] [] []).simulatedStandings).Perm
        ((simulateUndoTrades [c1BadRoster] [] [] []).originalStandings) := by
  intro h
  have h1 : ((simulateUndoTrades [c1BadRoster] [] [] []).simulatedStandings).map
      (fun t => t.wins) = [0] := rfl
  have h2 : ((simulateUndoTrades [c1BadRoster] [] [] []).originalStandings).map
      (fun t => t.wins) = [1] := rfl
  have h3 := h.map (fun t => t.wins)
  rw [h1, h2] at h3
  have h4 : (0 : Int) = 1 := List.singleton_perm_singleton.1 h3
  exact absurd h4 (by norm_num)

/-- C1 witness: the amended theorem applied to a concrete consistent
two-roster, one-week dataset. -/
theorem noop_simulation_witness :
    (simulateUndoTrades [c1GoodRosterA, c1GoodRosterB] [] c1Matchups []).simulatedStandings =
      (simulateUndoTrades [c1GoodRosterA, c1GoodRosterB] [] c1Matchups []).originalStandings ∧
    (simulateUndoTrades [c1GoodRosterA, c1GoodRosterB] [] c1Matchups []).affectedTeams = [] := by
  refine noop_simulation_of_consistent_stats [] [c1GoodRosterA, c1GoodRosterB] c1Matchups ?_ ?_
  · intro wm hwm m hm
    rw [c1Matchups, List.mem_singleton] at hwm
    subst hwm
    rcases List.mem_cons.1 hm with h | h
    · subst h; norm_num [c1MatchupA]
    · rw [List.mem_singleton] at h
      subst h; norm_num [c1MatchupB]
  · have htbl1 : teamStatsTable c1Matchups 1 =
        { wins := 1, losses := 0, ties := 0, pointsFor := 100, pointsAgainst := 90 } := by
      norm_num [teamStatsTable, c1Matchups, groupByMatchupId, c1MatchupA, c1MatchupB,
        applyPairStats, updateStat, List.insertionSort, List.orderedInsert, List.dedup,
        List.pwFilter]
    have htbl2 : teamStatsTable c1Matchups 2 =
        { wins := 0, losses := 1, ties := 0, pointsFor := 90, pointsAgainst := 100 } := by
      norm_num [teamStatsTable, c1Matchups, groupByMatchupId, c1MatchupA, c1MatchupB,
        applyPairStats, updateStat, List.insertionSort, List.orderedInsert, List.dedup,
        List.pwFilter]
    intro r hr
    rcases List.mem_cons.1 hr with h | h
    · subst h
      refine ⟨?_, ?_, ?_, ?_, ?_⟩ <;>
        norm_num [c1GoodRosterA, htbl1, jsInt, jsRat, round2, round_eq]
    · rw [List.mem_singleton] at h
      subst h
      refine ⟨?_, ?_, ?_, ?_, ?_⟩ <;>
        norm_num [c1GoodRosterB, htbl2, jsInt, jsRat, round2, round_eq]

/-! ## C3 — heuristic score formula and non-negativity -/

theorem foldl_add_points (f : String → ℚ) : ∀ (l : List String) (a : ℚ),
    l.foldl (fun acc p => acc + f p) a = a + (l.map f).sum
  | [], a => by simp
  | p :: l, a => by
    rw [List.foldl_cons, foldl_add_points f l (a + f p), List.map_cons, List.sum_cons]
    ring

theorem foldl_sub_points (f : String → ℚ) : ∀ (l : List String) (a : ℚ),
    l.foldl (fun acc p => acc - f p) a = a - (l.map f).sum
  | [], a => by simp
  | p :: l, a => by
    rw [List.foldl_cons, foldl_sub_points f l (a - f p), List.map_cons, List.sum_cons]
    ring

/-- C3 (amended).  The heuristic score of a matchup whose roster has an
alternate-timeline entry equals `max(0, originalPoints + adjustment)`
with the adjustment described by the spec, and is therefore never
negative; consequently every matchup produced by the re-simulator whose
roster has an alternate-roster entry has a non-negative point total.  (A
matchup whose roster has no alternate entry passes through unchanged, so
the unrestricted "never negative for any matchup" reading fails; see the
counterexample.) -/
theorem simulated_points_formula_and_nonneg :
    (∀ (originalRosters : List Roster) (m : Matchup) (alt : Roster),
      calculateSimulatedPoints originalRosters m alt =
        max 0 (m.points + pointsAdjustmentSpec originalRosters m alt) ∧
      0 ≤ calculateSimulatedPoints originalRosters m alt) ∧
    (∀ (originalRosters altRosters : List Roster) (allMatchups : List (Nat × List Matchup)),
      ∀ wm ∈ simulateMatchupsWithAlternateRosters originalRosters allMatchups altRosters,
      ∀ m' ∈ wm.2,
      (altRosters.find? (fun r => r.roster_id == m'.roster_id)).isSome → 0 ≤ m'.points) := by
  have hformula : ∀ (originalRosters : List Roster) (m : Matchup) (alt : Roster),
      calculateSimulatedPoints originalRosters m alt =
        max 0 (m.points + pointsAdjustmentSpec originalRosters m alt) := by
    intro originalRosters m alt
    unfold calculateSimulatedPoints pointsAdjustmentSpec
    dsimp only
    rw [foldl_sub_points, foldl_add_points, zero_add]
  have hnonneg : ∀ (originalRosters : List Roster) (m : Matchup) (alt : Roster),
      0 ≤ calculateSimulatedPoints originalRosters m alt := by
    intro originalRosters m alt
    rw [hformula]
    exact le_max_left 0 _
  refine ⟨fun oR m alt => ⟨hformula oR m alt, hnonneg oR m alt⟩, ?_⟩
  intro oR altR allMs wm hwm m' hm' hsome
  rcases List.mem_map.1 hwm with ⟨wm0, _, hwm0⟩
  subst hwm0
  rcases List.mem_map.1 hm' with ⟨m0, _, hm0⟩
  subst hm0
  have hrid : (match altR.find? (fun r : Roster => r.roster_id == m0.roster_id) with
      | none => m0
      | some alt => { m0 with points := calculateSimulatedPoints oR m0 alt }).roster_id =
      m0.roster_id := by
    cases altR.find? (fun r : Roster => r.roster_id == m0.roster_id) <;> rfl
  simp only [hrid] at hsome
  cases hfind : altR.find? (fun r => r.roster_id == m0.roster_id) with
  | none =>
    rw [hfind] at hsome
    simp at hsome
  | some alt =>
    simp only [hfind]
    exact hnonneg oR m0 alt

/-- C3 counterexample.  A matchup whose roster has no alternate-roster
entry passes through the re-simulator unchanged, so a negative recorded
point total survives: the unrestricted "never produces a negative point
total for any matchup" reading is false. -/
theorem resimulate_negative_counterexample :
    simulateMatchupsWithAlternateRosters [] [(1, [c3NegMatchup])] [] = [(1, [c3NegMatchup])] ∧
    c3NegMatchup.points < 0 := by
  constructor
  · rfl
  · norm_num [c3NegMatchup]

/-- C3 witness: the amended theorem applied at a concrete matchup and
alternate roster, and at a concrete re-simulated week. -/
theorem simulated_points_formula_witness :
    (calculateSimulatedPoints [c5RosterA] c1MatchupA c5RosterA =
       max 0 (c1MatchupA.points + pointsAdjustmentSpec [c5RosterA] c1MatchupA c5RosterA) ∧
     0 ≤ calculateSimulatedPoints [c5RosterA] c1MatchupA c5RosterA) ∧
    0 ≤ (({ c1MatchupA with
        points := calculateSimulatedPoints [c5RosterA] c1MatchupA c5RosterA } : Matchup)).points := by
  constructor
  · exact simulated_points_formula_and_nonneg.1 [c5RosterA] c1MatchupA c5RosterA
  · refine simulated_points_formula_and_nonneg.2 [c5RosterA] [c5RosterA] [(1, [c1MatchupA])]
      (1, [{ c1MatchupA with
        points := calculateSimulatedPoints [c5RosterA] c1MatchupA c5RosterA }]) ?_
      ({ c1MatchupA with
        points := calculateSimulatedPoints [c5RosterA] c1MatchupA c5RosterA }) ?_ ?_
    · simp [simulateMatchupsWithAlternateRosters, c5RosterA, c1MatchupA, List.find?]
    · simp
    · simp [c5RosterA, c1MatchupA, List.find?]

/-! ## C5 — undo idempotence -/

theorem removePlayerFromRoster_roster_id (p : String) (r : Roster) :
    (removePlayerFromRoster p r).roster_id = r.roster_id := rfl

theorem addPlayerBackToRoster_roster_id (p : String) (r : Roster) :
    (addPlayerBackToRoster p r).roster_id = r.roster_id := by
  unfold addPlayerBackToRoster
  split <;> rfl

theorem applyAddsEntry_roster_id (e : String × Int) (r : Roster) :
    (applyAddsEntry e r).roster_id = r.roster_id := by
  unfold applyAddsEntry
  split <;> rfl

theorem applyDropsEntry_roster_id (e : String × Int) (r : Roster) :
    (applyDropsEntry e r).roster_id = r.roster_id := by
  unfold applyDropsEntry
  split
  · exact addPlayerBackToRoster_roster_id e.1 r
  · rfl

theorem foldl_applyAddsEntry_roster_id (es : List (String × Int)) :
    ∀ r : Roster, (es.foldl (fun r e => applyAddsEntry e r) r).roster_id = r.roster_id := by
  induction es with
  | nil => intro r; rfl
  | cons e es ih => intro r; rw [List.foldl_cons, ih, applyAddsEntry_roster_id]

theorem foldl_applyDropsEntry_roster_id (es : List (String × Int)) :
    ∀ r : Roster, (es.foldl (fun r e => applyDropsEntry e r) r).roster_id = r.roster_id := by
  induction es with
  | nil => intro r; rfl
  | cons e es ih => intro r; rw [List.foldl_cons, ih, applyDropsEntry_roster_id]

theorem undoTradeOnRoster_roster_id (t : Trade) (r : Roster) :
    (undoTradeOnRoster t r).roster_id = r.roster_id := by
  unfold undoTradeOnRoster
  rw [foldl_applyDropsEntry_roster_id, foldl_applyAddsEntry_roster_id]

theorem modifyFirst_eq_map (rid : Int) (f : Roster → Roster)
    (hf : ∀ r, (f r).roster_id = r.roster_id) :
    ∀ rs : List Roster, (rs.map (fun r => r.roster_id)).Nodup →
      modifyFirst (fun r => r.roster_id == rid) f rs =
        rs.map (fun r => if r.roster_id == rid then f r else r)
  | [], _ => rfl
  | r :: rs, hnodup => by
    rw [List.map_cons, List.nodup_cons] at hnodup
    by_cases hp : r.roster_id == rid
    · rw [modifyFirst, if_pos hp, List.map_cons, if_pos hp]
      have : ∀ x ∈ rs, (if x.roster_id == rid then f x else x) = x := by
        intro x hx
        have hne : x.roster_id ≠ rid := by
          intro he
          refine hnodup.1 ?_
          have hmem : x.roster_id ∈ rs.map (fun r => r.roster_id) :=
            List.mem_map_of_mem (fun r => r.roster_id) hx
          rwa [he, ← eq_of_beq hp] at hmem
        rw [if_neg (by simpa using hne)]
      rw [List.map_congr_left this]
      exact congrArg (List.cons (f r)) (List.map_id rs).symm
    · rw [modifyFirst, if_neg hp, List.map_cons, if_neg hp,
        modifyFirst_eq_map rid f hf rs hnodup.2]

theorem map_roster_id_applyAddsEntry (e : String × Int) (rs : List Roster) :
    (rs.map (applyAddsEntry e)).map (fun r => r.roster_id) = rs.map (fun r => r.roster_id) := by
  rw [List.map_map]
  exact List.map_congr_left (fun r _ => applyAddsEntry_roster_id e r)

theorem map_roster_id_applyDropsEntry (e : String × Int) (rs : List Roster) :
    (rs.map (applyDropsEntry e)).map (fun r => r.roster_id) = rs.map (fun r => r.roster_id) := by
  rw [List.map_map]
  exact List.map_congr_left (fun r _ => applyDropsEntry_roster_id e r)

theorem foldl_addsSteps_eq_map :
    ∀ (es : List (String × Int)) (rs : List Roster),
      (rs.map (fun r => r.roster_id)).Nodup →
      es.foldl undoTradeAddsStep rs =
        rs.map (fun r => es.foldl (fun r e => applyAddsEntry e r) r)
  | [], rs, _ => (List.map_id rs).symm
  | e :: es, rs, hnodup => by
    have hstep : undoTradeAddsStep rs e = rs.map (applyAddsEntry e) :=
      modifyFirst_eq_map e.2 (removePlayerFromRoster e.1)
        (removePlayerFromRoster_roster_id e.1) rs hnodup
    rw [List.foldl_cons, hstep,
      foldl_addsSteps_eq_map es (rs.map (applyAddsEntry e))
        (by rw [map_roster_id_applyAddsEntry]; exact hnodup),
      List.map_map]
    rfl

theorem foldl_dropsSteps_eq_map :
    ∀ (es : List (String × Int)) (rs : List Roster),
      (rs.map (fun r => r.roster_id)).Nodup →
      es.foldl undoTradeDropsStep rs =
        rs.map (fun r => es.foldl (fun r e => applyDropsEntry e r) r)
  | [], rs, _ => (List.map_id rs).symm
  | e :: es, rs, hnodup => by
    have hstep : undoTradeDropsStep rs e = rs.map (applyDropsEntry e) :=
      modifyFirst_eq_map e.2 (addPlayerBackToRoster e.1)
        (addPlayerBackToRoster_roster_id e.1) rs hnodup
    rw [List.foldl_cons, hstep,
      foldl_dropsSteps_eq_map es (rs.map (applyDropsEntry e))
        (by rw [map_roster_id_applyDropsEntry]; exact hnodup),
      List.map_map]
    rfl

theorem map_roster_id_foldl_adds (es : List (String × Int)) (rs : List Roster) :
    (rs.map (fun r => es.foldl (fun r e => applyAddsEntry e r) r)).map (fun r => r.roster_id) =
      rs.map (fun r => r.roster_id) := by
  rw [List.map_map]
  exact List.map_congr_left (fun r _ => foldl_applyAddsEntry_roster_id es r)

theorem undoTrade_eq_map (rosters : List Roster) (t : Trade)
    (hnodup : (rosters.map (fun r => r.roster_id)).Nodup) :
    undoTrade rosters t = rosters.map (undoTradeOnRoster t) := by
  unfold undoTrade
  rw [foldl_addsSteps_eq_map (t.adds.getD []) rosters hnodup,
    foldl_dropsSteps_eq_map (t.drops.getD [])
      (rosters.map (fun r => (t.adds.getD []).foldl (fun r e => applyAddsEntry e r) r))
      (by rw [map_roster_id_foldl_adds]; exact hnodup),
    List.map_map]
  rfl

theorem mem_players_foldl_adds :
    ∀ (es : List (String × Int)) (r : Roster) (x : String),
      (x ∈ (es.foldl (fun r e => applyAddsEntry e r) r).players ↔
        x ∈ r.players ∧ ∀ e ∈ es, e.2 = r.roster_id → x ≠ e.1)
  | [], r, x => by simp
  | e :: es, r, x => by
    rw [List.foldl_cons, mem_players_foldl_adds es (applyAddsEntry e r) x]
    simp only [applyAddsEntry_roster_id, List.forall_mem_cons]
    by_cases h : r.roster_id = e.2
    · have hb : (r.roster_id == e.2) = true := by simpa using h
      unfold applyAddsEntry
      rw [if_pos hb]
      unfold removePlayerFromRoster
      simp only [List.mem_filter, decide_eq_true_eq]
      constructor
      · rintro ⟨⟨hx, hxe⟩, hall⟩
        exact ⟨hx, fun _ => hxe, hall⟩
      · rintro ⟨hx, hhead, hall⟩
        exact ⟨⟨hx, hhead h.symm⟩, hall⟩
    · have hb : (r.roster_id == e.2) = false := by simpa using h
      have h' : e.2 ≠ r.roster_id := fun hh => h hh.symm
      unfold applyAddsEntry
      rw [if_neg (by simp [hb])]
      simp only [h', false_implies, true_and]

theorem mem_starters_foldl_adds :
    ∀ (es : List (String × Int)) (r : Roster) (x : String),
      (x ∈ (es.foldl (fun r e => applyAddsEntry e r) r).starters ↔
        x ∈ r.starters ∧ ∀ e ∈ es, e.2 = r.roster_id → x ≠ e.1)
  | [], r, x => by simp
  | e :: es, r, x => by
    rw [List.foldl_cons, mem_starters_foldl_adds es (applyAddsEntry e r) x]
    simp only [applyAddsEntry_roster_id, List.forall_mem_cons]
    by_cases h : r.roster_id = e.2
    · have hb : (r.roster_id == e.2) = true := by simpa using h
      unfold applyAddsEntry
      rw [if_pos hb]
      unfold removePlayerFromRoster
      simp only [List.mem_filter, decide_eq_true_eq]
      constructor
      · rintro ⟨⟨hx, hxe⟩, hall⟩
        exact ⟨hx, fun _ => hxe, hall⟩
      · rintro ⟨hx, hhead, hall⟩
        exact ⟨⟨hx, hhead h.symm⟩, hall⟩
    · have hb : (r.roster_id == e.2) = false := by simpa using h
      have h' : e.2 ≠ r.roster_id := fun hh => h hh.symm
      unfold applyAddsEntry
      rw [if_neg (by simp [hb])]
      simp only [h', false_implies, true_and]

theorem mem_players_foldl_drops :
    ∀ (es : List (String × Int)) (r : Roster) (x : String),
      (x ∈ (es.foldl (fun r e => applyDropsEntry e r) r).players ↔
        x ∈ r.players ∨ ∃ e ∈ es, e.2 = r.roster_id ∧ e.1 = x)
  | [], r, x => by simp
  | e :: es, r, x => by
    rw [List.foldl_cons, mem_players_foldl_drops es (applyDropsEntry e r) x]
    simp only [applyDropsEntry_roster_id, List.exists_mem_cons_iff]
    by_cases h : r.roster_id = e.2
    · have hb : (r.roster_id == e.2) = true := by simpa using h
      unfold applyDropsEntry
      rw [if_pos hb]
      unfold addPlayerBackToRoster
      by_cases hmem : e.1 ∈ r.players
      · rw [if_pos hmem]
        constructor
        · rintro (hx | hx)
          · exact Or.inl hx
          · exact Or.inr (Or.inr hx)
        · rintro (hx | hx | hx)
          · exact Or.inl hx
          · exact Or.inl (hx.2 ▸ hmem)
          · exact Or.inr hx
      · rw [if_neg hmem]
        simp only [List.mem_append, List.mem_singleton]
        constructor
        · rintro ((hx | hx) | hx)
          · exact Or.inl hx
          · exact Or.inr (Or.inl ⟨h.symm, hx.symm⟩)
          · exact Or.inr (Or.inr hx)
        · rintro (hx | hx | hx)
          · exact Or.inl (Or.inl hx)
          · exact Or.inl (Or.inr hx.2.symm)
          · exact Or.inr hx
    · have hb : (r.roster_id == e.2) = false := by simpa using h
      have h' : ¬(e.2 = r.roster_id ∧ e.1 = x) := fun hh => h hh.1.symm
      unfold applyDropsEntry
      rw [if_neg (by simp [hb])]
      simp only [h', false_or]

theorem applyDropsEntry_starters (e : String × Int) (r : Roster) :
    (applyDropsEntry e r).starters = r.starters := by
  unfold applyDropsEntry addPlayerBackToRoster
  split
  · split <;> rfl
  · rfl

theorem starters_foldl_drops (es : List (String × Int)) :
    ∀ r : Roster, (es.foldl (fun r e => applyDropsEntry e r) r).starters = r.starters := by
  induction es with
  | nil => intro r; rfl
  | cons e es ih => intro r; rw [List.foldl_cons, ih, applyDropsEntry_starters]

theorem foldl_adds_no_op :
    ∀ (es : List (String × Int)) (r : Roster),
      (∀ e ∈ es, e.2 = r.roster_id → e.1 ∉ r.players ∧ e.1 ∉ r.starters) →
      es.foldl (fun r e => applyAddsEntry e r) r = r
  | [], _, _ => rfl
  | e :: es, r, h => by
    have hstep : applyAddsEntry e r = r := by
      unfold applyAddsEntry
      by_cases hb : r.roster_id == e.2
      · have he := (h e (List.mem_cons_self e es) (eq_of_beq hb).symm)
        rw [if_pos hb]
        unfold removePlayerFromRoster
        have hp : r.players.filter (fun q => q ≠ e.1) = r.players := by
          rw [List.filter_eq_self]
          intro a ha
          simp only [decide_eq_true_eq]
          exact fun hae => he.1 (hae ▸ ha)
        have hs : r.starters.filter (fun q => q ≠ e.1) = r.starters := by
          rw [List.filter_eq_self]
          intro a ha
          simp only [decide_eq_true_eq]
          exact fun hae => he.2 (hae ▸ ha)
        rw [hp, hs]
      · rw [if_neg hb]
    rw [List.foldl_cons, hstep,
      foldl_adds_no_op es r (fun e' he' => h e' (List.mem_cons_of_mem e he'))]

theorem foldl_drops_no_op :
    ∀ (es : List (String × Int)) (r : Roster),
      (∀ e ∈ es, e.2 = r.roster_id → e.1 ∈ r.players) →
      es.foldl (fun r e => applyDropsEntry e r) r = r
  | [], _, _ => rfl
  | e :: es, r, h => by
    have hstep : applyDropsEntry e r = r := by
      unfold applyDropsEntry
      by_cases hb : r.roster_id == e.2
      · rw [if_pos hb]
        unfold addPlayerBackToRoster
        rw [if_pos (h e (List.mem_cons_self e es) (eq_of_beq hb).symm)]
      · rw [if_neg hb]
    rw [List.foldl_cons, hstep,
      foldl_drops_no_op es r (fun e' he' => h e' (List.mem_cons_of_mem e he'))]

theorem undoTradeOnRoster_idem (t : Trade) (r : Roster)
    (hdisj : ∀ e ∈ t.adds.getD [], e ∉ t.drops.getD []) :
    undoTradeOnRoster t (undoTradeOnRoster t r) = undoTradeOnRoster t r := by
  have hidA : ((t.adds.getD []).foldl (fun r e => applyAddsEntry e r) r).roster_id =
      r.roster_id := foldl_applyAddsEntry_roster_id _ r
  have hid1 : (undoTradeOnRoster t r).roster_id = r.roster_id := undoTradeOnRoster_roster_id t r
  have hstep1 : (t.adds.getD []).foldl (fun r e => applyAddsEntry e r) (undoTradeOnRoster t r) =
      undoTradeOnRoster t r := by
    apply foldl_adds_no_op
    intro e he hrel
    rw [hid1] at hrel
    constructor
    · intro hx
      rw [undoTradeOnRoster, mem_players_foldl_drops] at hx
      rcases hx with hx | ⟨e', he', h2, h1⟩
      · rw [mem_players_foldl_adds] at hx
        exact hx.2 e he hrel rfl
      · rw [hidA] at h2
        have : e = e' := Prod.ext (h1.symm) (hrel.trans h2.symm)
        exact hdisj e he (this ▸ he')
    · intro hx
      rw [undoTradeOnRoster, starters_foldl_drops, mem_starters_foldl_adds] at hx
      exact hx.2 e he hrel rfl
  have hstep2 : (t.drops.getD []).foldl (fun r e => applyDropsEntry e r) (undoTradeOnRoster t r) =
      undoTradeOnRoster t r := by
    apply foldl_drops_no_op
    intro e he hrel
    rw [hid1] at hrel
    rw [undoTradeOnRoster, mem_players_foldl_drops]
    exact Or.inr ⟨e, he, by rw [hidA]; exact hrel, rfl⟩
  show (t.drops.getD []).foldl (fun r e => applyDropsEntry e r)
      ((t.adds.getD []).foldl (fun r e => applyAddsEntry e r) (undoTradeOnRoster t r)) =
    undoTradeOnRoster t r
  rw [hstep1, hstep2]

/-- C5 (amended).  For a roster set with distinct roster ids (as the data
model guarantees) and a trade in which no (player, roster) pair appears
in both `adds` and `drops` (a real trade never sends and receives the
same player for the same roster), undoing the trade twice yields the
same alternate roster set as undoing it once — both as the bare
`undoTrade` composition and through `createAlternateRosters` applied to
the trade listed twice. -/
theorem undoTrade_idempotent (rosters : List Roster) (t : Trade)
    (hnodup : (rosters.map (fun r => r.roster_id)).Nodup)
    (hdisj : ∀ e ∈ t.adds.getD [], e ∉ t.drops.getD []) :
    undoTrade (undoTrade rosters t) t = undoTrade rosters t ∧
    createAlternateRosters rosters [t, t] = createAlternateRosters rosters [t] := by
  have h1 : undoTrade rosters t = rosters.map (undoTradeOnRoster t) :=
    undoTrade_eq_map rosters t hnodup
  have hnodup' : ((rosters.map (undoTradeOnRoster t)).map (fun r => r.roster_id)).Nodup := by
    rw [List.map_map]
    have : rosters.map (fun r => (undoTradeOnRoster t r).roster_id) =
        rosters.map (fun r => r.roster_id) :=
      List.map_congr_left (fun r _ => undoTradeOnRoster_roster_id t r)
    rw [show ((fun r => r.roster_id) ∘ undoTradeOnRoster t) =
        (fun r : Roster => (undoTradeOnRoster t r).roster_id) from rfl, this]
    exact hnodup
  have hmain : undoTrade (undoTrade rosters t) t = undoTrade rosters t := by
    rw [h1, undoTrade_eq_map (rosters.map (undoTradeOnRoster t)) t hnodup', List.map_map]
    exact List.map_congr_left (fun r _ => undoTradeOnRoster_idem t r hdisj)
  refine ⟨hmain, ?_⟩
  have hsort2 : List.insertionSort tradeMoreRecent [t, t] = [t, t] := by
    simp [List.insertionSort, List.orderedInsert, tradeMoreRecent]
  show (List.insertionSort tradeMoreRecent [t, t]).foldl undoTrade (deepCopyRosters rosters) =
    (List.insertionSort tradeMoreRecent [t]).foldl undoTrade (deepCopyRosters rosters)
  rw [hsort2, deepCopyRosters_eq]
  show undoTrade (undoTrade rosters t) t = undoTrade rosters t
  exact hmain

/-- C5 counterexample.  For a degenerate trade whose `adds` and `drops`
share the pair (player P, roster 1) and whose `drops` has a later entry
for the same roster, undoing the trade twice does not equal undoing it
once (the player lists end in different orders), so the claim fails
without the adds/drops-disjointness hypothesis. -/
theorem undo_idempotence_counterexample :
    createAlternateRosters [c5Roster] [c5BadTrade, c5BadTrade] ≠
      createAlternateRosters [c5Roster] [c5BadTrade] := by
  decide

/-- C5 witness: the amended theorem applied to a concrete two-roster set
and a concrete well-formed trade. -/
theorem undoTrade_idempotent_witness :
    undoTrade (undoTrade [c5RosterA, c5RosterB] c5GoodTrade) c5GoodTrade =
      undoTrade [c5RosterA, c5RosterB] c5GoodTrade ∧
    createAlternateRosters [c5RosterA, c5RosterB] [c5GoodTrade, c5GoodTrade] =
      createAlternateRosters [c5RosterA, c5RosterB] [c5GoodTrade] :=
  undoTrade_idempotent [c5RosterA, c5RosterB] c5GoodTrade (by decide) (by decide)

/-! ## C4 — the simulation never mutates the original rosters -/

theorem take_set_of_le (l : RosterHeap) (i : Nat) (v : Roster) (n : Nat) (h : n ≤ i) :
    (l.set i v).take n = l.take n := by
  apply List.ext_getElem?
  intro j
  rw [List.getElem?_take, List.getElem?_take]
  by_cases hj : j < n
  · rw [if_pos hj, if_pos hj, List.getElem?_set_ne (by omega)]
  · rw [if_neg hj, if_neg hj]

theorem modifyFirstRef_take (base : Nat) (refs : List Nat) (hrefs : ∀ i ∈ refs, base ≤ i)
    (p : Roster → Bool) (f : Roster → Roster) (heap : RosterHeap) :
    (modifyFirstRef refs p f heap).take base = heap.take base := by
  induction refs with
  | nil => rfl
  | cons i rest ih =>
    unfold modifyFirstRef
    split
    · exact take_set_of_le heap i _ base (hrefs i (List.mem_cons_self i rest))
    · exact ih (fun j hj => hrefs j (List.mem_cons_of_mem i hj))

theorem foldl_modifyFirstRef_take (base : Nat) (refs : List Nat)
    (hrefs : ∀ i ∈ refs, base ≤ i) (p : String × Int → Roster → Bool)
    (f : String × Int → Roster → Roster) :
    ∀ (es : List (String × Int)) (heap : RosterHeap),
      (es.foldl (fun h e => modifyFirstRef refs (p e) (f e) h) heap).take base = heap.take base
  | [], _ => rfl
  | e :: es, heap => by
    rw [List.foldl_cons, foldl_modifyFirstRef_take base refs hrefs p f es _,
      modifyFirstRef_take base refs hrefs]

theorem undoTradeOnHeap_take (base : Nat) (altRefs : List Nat)
    (hrefs : ∀ i ∈ altRefs, base ≤ i) (heap : RosterHeap) (t : Trade) :
    (undoTradeOnHeap altRefs heap t).take base = heap.take base := by
  unfold undoTradeOnHeap
  rw [foldl_modifyFirstRef_take base altRefs hrefs
      (fun e r => r.roster_id == e.2) (fun e => addPlayerBackToRoster e.1),
    foldl_modifyFirstRef_take base altRefs hrefs
      (fun e r => r.roster_id == e.2) (fun e => removePlayerFromRoster e.1)]

theorem foldl_undoTradeOnHeap_take (base : Nat) (altRefs : List Nat)
    (hrefs : ∀ i ∈ altRefs, base ≤ i) :
    ∀ (trades : List Trade) (heap : RosterHeap),
      (trades.foldl (undoTradeOnHeap altRefs) heap).take base = heap.take base
  | [], _ => rfl
  | t :: ts, heap => by
    rw [List.foldl_cons, foldl_undoTradeOnHeap_take base altRefs hrefs ts _,
      undoTradeOnHeap_take base altRefs hrefs]

/-- C4.  The roster timeline reconstructor never mutates the input
current rosters: in the heap model of object identity, for every heap of
roster objects, every reference list and every set of trades to undo,
after `createAlternateRosters` has produced the alternate rosters, every
pre-existing heap cell — in particular every original roster's players,
starters, and settings — is unchanged, because the alternate timeline is
built on deep-copied fresh cells and every mutation goes through the
fresh references only. -/
theorem createAlternateRostersOnHeap_frame (heap : RosterHeap) (origRefs : List Nat)
    (tradesToUndo : List Trade) :
    ((createAlternateRostersOnHeap heap origRefs tradesToUndo).1).take heap.length = heap ∧
    (createAlternateRostersOnHeap heap origRefs tradesToUndo).2 =
      List.range' heap.length origRefs.length := by
  constructor
  · show ((List.insertionSort tradeMoreRecent tradesToUndo).foldl
        (undoTradeOnHeap (List.range' heap.length origRefs.length))
        (heap ++ origRefs.map (fun i => deepCopyRoster (heap.getD i default)))).take heap.length =
      heap
    rw [foldl_undoTradeOnHeap_take heap.length (List.range' heap.length origRefs.length)
        (fun i hi => by
          rcases List.mem_range'.1 hi with ⟨k, _, hk⟩
          omega)]
    exact List.take_left heap _
  · rfl

/-! ## C10 — byes and unmatched matchups in the weekly impact -/

theorem getMatchupResult_no_opponent (m : Matchup) (ms : List Matchup)
    (h : ∀ x ∈ ms, x.matchup_id = m.matchup_id → x.roster_id = m.roster_id) :
    getMatchupResult m ms = MatchResult.L := by
  unfold getMatchupResult
  have hfind : ms.find? (fun x => x.matchup_id == m.matchup_id && x.roster_id != m.roster_id) =
      none := by
    rw [List.find?_eq_none]
    intro x hx
    by_cases hid : x.matchup_id = m.matchup_id
    · simp [hid, h x hx hid]
    · simp [hid]
  rw [hfind]

theorem mem_assignRanksFrom :
    ∀ (n : Nat) (l : List TeamStanding) (s : TeamStanding), s ∈ assignRanksFrom n l →
      ∃ t ∈ l, ∃ k, s = { t with rank := k }
  | _, [], s, h => absurd h (List.not_mem_nil s)
  | n, t :: ts, s, h => by
    rcases List.mem_cons.1 h with h | h
    · exact ⟨t, List.mem_cons_self t ts, n, h⟩
    · rcases mem_assignRanksFrom (n + 1) ts s h with ⟨t', ht', k, hk⟩
      exact ⟨t', List.mem_cons_of_mem t ht', k, hk⟩

theorem teamStatsTable_single (w : Nat) (m : Matchup) :
    teamStatsTable [(w, [m])] =
      fun _ => { wins := 0, losses := 0, ties := 0, pointsFor := 0, pointsAgainst := 0 } := by
  unfold teamStatsTable
  rw [List.foldl_cons, List.foldl_nil]
  have hg : groupByMatchupId [m] = [[m]] := by
    unfold groupByMatchupId
    have hd : (([m].map (fun x => x.matchup_id)).dedup) = [m.matchup_id] := by simp
    rw [hd]
    simp [List.insertionSort, List.orderedInsert]
  rw [hg, List.foldl_cons, List.foldl_nil]
  rfl

/-- C10.  (1) A matchup whose pairing has no opponent entry reports a
loss.  (2) A simulated matchup with no corresponding original matchup is
reported with zero original points, a difference equal to its full
simulated points, and a loss on both sides.  (3) A simulated matchup
whose original exists but whose pairing has no opponent in either list
is reported with result 'L' on both sides.  (4) Unlike the impact
report, the standings computation skips pairings that do not have
exactly two entries: a week with a single matchup contributes no stats
at all. -/
theorem weekly_impact_edge_cases :
    (∀ (m : Matchup) (ms : List Matchup),
      (∀ x ∈ ms, x.matchup_id = m.matchup_id → x.roster_id = m.roster_id) →
      getMatchupResult m ms = MatchResult.L) ∧
    (∀ (users : List User) (oR : List Roster) (allMs : List (Nat × List Matchup))
        (w : Nat) (sms : List Matchup) (sm : Matchup), sm ∈ sms →
      ((allMs.lookup w).getD []).find? (fun om => om.roster_id == sm.roster_id) = none →
      ∃ wi ∈ calculateWeeklyImpact users oR allMs [(w, sms)],
        wi.week = w ∧
        ({ rosterId := sm.roster_id
           teamName := getTeamNameByRosterId users oR sm.roster_id
           originalPoints := 0
           simulatedPoints := sm.points
           difference := sm.points
           originalResult := MatchResult.L
           simulatedResult := MatchResult.L } : TeamWeeklyImpact) ∈ wi.teamImpacts) ∧
    (∀ (users : List User) (oR : List Roster) (allMs : List (Nat × List Matchup))
        (w : Nat) (sms : List Matchup) (sm om : Matchup), sm ∈ sms →
      ((allMs.lookup w).getD []).find? (fun x => x.roster_id == sm.roster_id) = some om →
      (∀ x ∈ (allMs.lookup w).getD [], x.matchup_id = om.matchup_id → x.roster_id = om.roster_id) →
      (∀ x ∈ sms, x.matchup_id = sm.matchup_id → x.roster_id = sm.roster_id) →
      ∃ wi ∈ calculateWeeklyImpact users oR allMs [(w, sms)],
        wi.week = w ∧
        ({ rosterId := sm.roster_id
           teamName := getTeamNameByRosterId users oR sm.roster_id
           originalPoints := round2 om.points
           simulatedPoints := round2 sm.points
           difference := round2 (sm.points - om.points)
           originalResult := MatchResult.L
           simulatedResult := MatchResult.L } : TeamWeeklyImpact) ∈ wi.teamImpacts) ∧
    (∀ (users : List User) (rosters : List Roster) (w : Nat) (m : Matchup),
      ∀ s ∈ calculateStandingsFromMatchups users [(w, [m])] rosters,
        s.wins = 0 ∧ s.losses = 0 ∧ s.ties = 0 ∧ s.pointsFor = 0 ∧ s.pointsAgainst = 0) := by
  refine ⟨getMatchupResult_no_opponent, ?_, ?_, ?_⟩
  · intro users oR allMs w sms sm hsm hnone
    refine ⟨⟨w, sms.map (weeklyTeamImpact users oR ((allMs.lookup w).getD []) sms)⟩,
      List.mem_singleton.2 rfl, rfl, ?_⟩
    have : weeklyTeamImpact users oR ((allMs.lookup w).getD []) sms sm =
        { rosterId := sm.roster_id
          teamName := getTeamNameByRosterId users oR sm.roster_id
          originalPoints := 0
          simulatedPoints := sm.points
          difference := sm.points
          originalResult := MatchResult.L
          simulatedResult := MatchResult.L } := by
      unfold weeklyTeamImpact
      rw [hnone]
    exact this ▸ List.mem_map_of_mem (weeklyTeamImpact users oR ((allMs.lookup w).getD []) sms) hsm
  · intro users oR allMs w sms sm om hsm hfound hnoOrig hnoSim
    refine ⟨⟨w, sms.map (weeklyTeamImpact users oR ((allMs.lookup w).getD []) sms)⟩,
      List.mem_singleton.2 rfl, rfl, ?_⟩
    have : weeklyTeamImpact users oR ((allMs.lookup w).getD []) sms sm =
        { rosterId := sm.roster_id
          teamName := getTeamNameByRosterId users oR sm.roster_id
          originalPoints := round2 om.points
          simulatedPoints := round2 sm.points
          difference := round2 (sm.points - om.points)
          originalResult := MatchResult.L
          simulatedResult := MatchResult.L } := by
      unfold weeklyTeamImpact
      rw [hfound]
      dsimp only
      rw [getMatchupResult_no_opponent om _ hnoOrig,
        getMatchupResult_no_opponent sm sms hnoSim]
    exact this ▸ List.mem_map_of_mem (weeklyTeamImpact users oR ((allMs.lookup w).getD []) sms) hsm
  · intro users rosters w m s hs
    unfold calculateStandingsFromMatchups at hs
    rcases mem_assignRanksFrom 1 _ s hs with ⟨t, ht, k, hk⟩
    have ht' : t ∈ rosters.map (standingOfStats users (teamStatsTable [(w, [m])])) :=
      (List.perm_insertionSort standingBefore _).mem_iff.1 ht
    rcases List.mem_map.1 ht' with ⟨r, _, hr⟩
    subst hr
    subst hk
    rw [teamStatsTable_single]
    refine ⟨?_, ?_, ?_, ?_, ?_⟩ <;> norm_num [standingOfStats, round2, round_eq]

/-- C10 witness: the theorem's four parts applied at concrete inputs.  -/
theorem weekly_impact_edge_witness :
    getMatchupResult c10Matchup [c10Matchup] = MatchResult.L ∧
    (∃ wi ∈ calculateWeeklyImpact [] [] [] [(1, [c10Matchup])],
      wi.week = 1 ∧
      ({ rosterId := c10Matchup.roster_id
         teamName := getTeamNameByRosterId [] [] c10Matchup.roster_id
         originalPoints := 0
         simulatedPoints := c10Matchup.points
         difference := c10Matchup.points
         originalResult := MatchResult.L
         simulatedResult := MatchResult.L } : TeamWeeklyImpact) ∈ wi.teamImpacts) ∧
    (∃ wi ∈ calculateWeeklyImpact [] [] [(1, [c10Matchup])] [(1, [c10Matchup])],
      wi.week = 1 ∧
      ({ rosterId := c10Matchup.roster_id
         teamName := getTeamNameByRosterId [] [] c10Matchup.roster_id
         originalPoints := round2 c10Matchup.points
         simulatedPoints := round2 c10Matchup.points
         difference := round2 (c10Matchup.points - c10Matchup.points)
         originalResult := MatchResult.L
         simulatedResult := MatchResult.L } : TeamWeeklyImpact) ∈ wi.teamImpacts) ∧
    (∀ s ∈ calculateStandingsFromMatchups [] [(1, [c10Matchup])] [c5RosterA],
      s.wins = 0 ∧ s.losses = 0 ∧ s.ties = 0 ∧ s.pointsFor = 0 ∧ s.pointsAgainst = 0) := by
  refine ⟨?_, ?_, ?_, ?_⟩
  · exact weekly_impact_edge_cases.1 c10Matchup [c10Matchup] (by decide)
  · exact weekly_impact_edge_cases.2.1 [] [] [] 1 [c10Matchup] c10Matchup
      (List.mem_singleton.2 rfl) rfl
  · exact weekly_impact_edge_cases.2.2.1 [] [] [(1, [c10Matchup])] 1 [c10Matchup]
      c10Matchup c10Matchup (List.mem_singleton.2 rfl) rfl (by decide) (by decide)
  · exact weekly_impact_edge_cases.2.2.2 [] [c5RosterA] 1 c10Matchup

/-! ## C9 — graceful degradation of the draft-pick resolver -/

/-- C9.  For every draft-pick reference whose standings-year bundle
(pick season minus 1) is absent or contains no rosters, the resolver
returns the round-only text label — no slot, no player.  The embedded
resolver is a total function into `String`, so no exception is possible
in this (or any) case. -/
theorem formatDraftPick_degrades (cd : Int → Option SeasonBundle)
    (players : List (String × PlayerInfo)) (pick : DraftPick)
    (h : cd (pick.season - 1) = none ∨
      ∃ sd, cd (pick.season - 1) = some sd ∧ sd.rosters = []) :
    formatDraftPick cd players pick = roundOnlyLabel pick := by
  rcases h with h | ⟨sd, h, hr⟩
  · unfold formatDraftPick
    dsimp only
    rw [h]
  · unfold formatDraftPick
    dsimp only
    rw [h]
    simp [hr]

/-- C9 witness: the degradation theorem applied to a concrete pick with
no loaded season bundles. -/
theorem formatDraftPick_degrades_witness :
    formatDraftPick c9Data [] c9Pick = roundOnlyLabel c9Pick ∧
    roundOnlyLabel c9Pick = "2024 2nd Round Pick" :=
  ⟨formatDraftPick_degrades c9Data [] c9Pick (Or.inl rfl), by decide⟩

/-! ## C8 — the season-chain resolver -/

/-- C8 (amended).  The season-chain resolver implements: (1) exact year
match returns that season's identifier; (2) a year exactly one less than
the most recent season's year, when the most recent season carries a
previous-season identifier, returns that identifier; (3) otherwise an
enumerated season whose year equals `year + 1` and which carries a
previous-season identifier returns that identifier; (4) otherwise
not-found, returned as a normal `Option` outcome rather than an error.
There is no future-year fallback (see the counterexample). -/
theorem findLeagueIdForSeason_spec_eq (league : ConsolidatedLeague) (year : Int) :
    findLeagueIdForSeason league year = findLeagueIdForSeasonSpec league year := by
  unfold findLeagueIdForSeason findLeagueIdForSeasonSpec
  cases h1 : league.seasons.find? (fun s => s.season == year) with
  | some t => simp [Option.orElse]
  | none =>
    simp only [Option.map_none', Option.none_orElse]
    by_cases hy : year = league.mostRecentSeason.season - 1
    · by_cases hp : strOptTruthy league.mostRecentSeason.previous_league_id
      · rw [if_pos (by simp [hy, hp])]
        rw [if_pos hy]
        cases hprev : league.mostRecentSeason.previous_league_id with
        | none => rw [hprev] at hp; simp [strOptTruthy] at hp
        | some s =>
          rw [hprev] at hp
          have hs : s ≠ "" := by simpa [strOptTruthy] using hp
          simp [hprev, Option.filter, hs, Option.orElse]
      · rw [if_neg (by simp [hp])]
        rw [if_pos hy]
        have hfil : league.mostRecentSeason.previous_league_id.filter (fun s => s ≠ "") = none := by
          cases hprev : league.mostRecentSeason.previous_league_id with
          | none => rfl
          | some s =>
            rw [hprev] at hp
            have hs : s = "" := by
              by_contra hs
              exact hp (by simpa [strOptTruthy] using hs)
            simp [Option.filter, hs]
        rw [hfil]
        cases h2 : league.seasons.find?
            (fun s => s.season == year + 1 && strOptTruthy s.previous_league_id) with
        | some s => simp [Option.orElse]
        | none => simp [Option.orElse]
    · rw [if_neg (by simp [hy]), if_neg hy]
      cases h2 : league.seasons.find?
          (fun s => s.season == year + 1 && strOptTruthy s.previous_league_id) with
      | some s => simp [Option.orElse]
      | none => simp [Option.orElse]

/-- C8 counterexample.  For a year later than the most recent known
season the resolver returns not-found, not the most recent season's
identifier as the claim's step (2) asserts. -/
theorem findLeagueIdForSeason_future_counterexample :
    findLeagueIdForSeason c8League 2024 = none ∧
    findLeagueIdForSeason c8League 2024 ≠ some c8League.mostRecentSeason.league_id ∧
    c8League.mostRecentSeason.season < 2024 := by
  decide

/-! ## C7 — owner-identifying field preference -/

/-- C7 counterexample.  A pick whose only populated owner field is its
own roster field — pointing at a fully resolvable roster — is left
unresolved (round-only label), while the same pick with
`previous_owner_id` populated resolves: the pick's own roster field is
never consulted, so the claimed three-level fallback is false. -/
theorem owner_roster_field_counterexample :
    formatDraftPick c6Data c6Players c7RosterFieldPick = roundOnlyLabel c7RosterFieldPick ∧
    formatDraftPick c6Data c6Players c6Pick ≠ roundOnlyLabel c6Pick := by
  constructor
  · decide
  · decide

/-- C7 (amended).  The resolver identifies the pick's original-owner
roster id by checking the explicit original-owner field first and
falling back to the previous-owner field; the pick's own roster field is
not consulted (the resolver's output is invariant under changing it). -/
theorem owner_field_preference (cd : Int → Option SeasonBundle)
    (players : List (String × PlayerInfo)) (pick : DraftPick) (rid : Int) (x : Option Int) :
    formatDraftPick cd players { pick with roster_id := rid } = formatDraftPick cd players pick ∧
    (intTruthy pick.original_owner = true →
      formatDraftPick cd players { pick with previous_owner_id := x } =
        formatDraftPick cd players pick) := by
  constructor
  · cases pick
    rfl
  · intro h
    cases pick with
    | mk s rnd rosterid own prev orig =>
      have h' : intTruthy orig = true := h
      have hor : ∀ y : Option Int, jsOrInt orig y = orig := by
        intro y
        unfold jsOrInt
        rw [if_pos h']
      show formatDraftPick cd players ⟨s, rnd, rosterid, own, x, orig⟩ =
        formatDraftPick cd players ⟨s, rnd, rosterid, own, prev, orig⟩
      unfold formatDraftPick
      rw [hor x, hor prev]
      rfl

/-- C7 witness: the amended preference theorem applied at concrete
picks — roster-field invariance at `c6Pick`, and previous-owner
irrelevance for a pick with a populated original-owner field. -/
theorem owner_field_preference_witness :
    formatDraftPick c6Data c6Players { c6Pick with roster_id := 7 } =
      formatDraftPick c6Data c6Players c6Pick ∧
    formatDraftPick c6Data c6Players
        { c6Pick with original_owner := some 2, previous_owner_id := some 9 } =
      formatDraftPick c6Data c6Players { c6Pick with original_owner := some 2 } := by
  constructor
  · exact (owner_field_preference c6Data c6Players c6Pick 7 none).1
  · have h2 := (owner_field_preference c6Data c6Players
      { c6Pick with original_owner := some 2 } 0 (some 9)).2 (by decide)
    exact h2

/-! ## C6 — draft-slot arithmetic and overall pick search -/

theorem getPlayerName_ne_empty (players : List (String × PlayerInfo)) (pid : String) :
    getPlayerName players pid ≠ "" := by
  unfold getPlayerName
  cases players.lookup pid with
  | none =>
    intro hcon
    have hlen := congrArg String.length hcon
    rw [String.length_append] at hlen
    have h7 : ("Player " : String).length = 7 := by decide
    rw [h7] at hlen
    simp at hlen
  | some p =>
    intro hcon
    have hlen := congrArg String.length hcon
    rw [String.length_append, String.length_append, String.length_append] at hlen
    have h2 : (" (" : String).length = 2 := by decide
    rw [h2] at hlen
    simp at hlen

/-- C6.  For a pick whose original owner's final rank in the prior
season's standings is known (the standings-year bundle is loaded and
non-empty, an owner field resolves, and the owner's roster and user are
found), the resolver computes the draft slot as `totalTeams - rank + 1`
(rank 1 = best record, so the worst record picks first), formats it as
the round number, a dot, and the slot zero-padded to 2 digits
(`pickNumberString`), and — when the pick-season bundle has a completed
draft — searches that draft's pick list for the absolute overall pick
number `(round - 1) * totalTeams + slot`, with `totalTeams` the
standings-season team count. -/
theorem formatDraftPick_slot_resolution (cd : Int → Option SeasonBundle)
    (players : List (String × PlayerInfo)) (pick : DraftPick) (sd pd : SeasonBundle)
    (oid : Int) (orr : Roster) (ou : User) (d : DraftInfo) (ds : List DraftInfo)
    (hsd : cd (pick.season - 1) = some sd)
    (hne : sd.rosters ≠ [])
    (hoid : jsOrInt pick.original_owner pick.previous_owner_id = some oid)
    (hoid0 : oid ≠ 0)
    (horr : sd.rosters.find? (fun r => r.roster_id == oid) = some orr)
    (hou : sd.users.find? (fun u => u.user_id == orr.owner_id) = some ou)
    (hname : jsOrString ou.display_name ou.username ≠ "Unknown")
    (hpd : cd pick.season = some pd)
    (hdrafts : pd.drafts = d :: ds)
    (hpicks : (pd.draftPicks.lookup d.draft_id).getD [] ≠ []) :
    formatDraftPick cd players pick =
      (let totalTeams : Int := sd.rosters.length
       let slot := totalTeams - (calculateRankFromRecord orr sd.rosters : Int) + 1
       match ((pd.draftPicks.lookup d.draft_id).getD []).find?
           (fun p => p.pick_no == (pick.round - 1) * totalTeams + slot) with
       | some sp =>
         if strOptTruthy sp.player_id then
           roundOnlyLabel pick ++ " (" ++ pickNumberString pick.round slot ++ " - " ++
             getPlayerName players (sp.player_id.getD "") ++ ")"
         else
           roundOnlyLabel pick ++ " (" ++ pickNumberString pick.round slot ++ " - from " ++
             jsOrString ou.display_name ou.username ++ ")"
       | none =>
         roundOnlyLabel pick ++ " (" ++ pickNumberString pick.round slot ++ " - from " ++
           jsOrString ou.display_name ou.username ++ ")") := by
  unfold formatDraftPick
  dsimp only
  rw [hsd]
  dsimp only
  have hlen0 : ((sd.rosters.length == 0) = true) = False := by
    simp [List.length_eq_zero, hne]
  rw [if_neg (by rw [hlen0]; exact id)]
  rw [hoid]
  dsimp only
  rw [if_pos hoid0, horr]
  dsimp only
  rw [hou]
  dsimp only
  rw [hpd]
  dsimp only
  rw [hdrafts]
  dsimp only
  rw [if_pos (List.length_pos.2 hpicks)]
  simp only [Option.map_some', Option.getD_some]
  cases hfind : ((pd.draftPicks.lookup d.draft_id).getD []).find?
      (fun p => p.pick_no ==
        (pick.round - 1) * (sd.rosters.length : Int) +
          ((sd.rosters.length : Int) - (calculateRankFromRecord orr sd.rosters : Int) + 1)) with
  | none =>
    dsimp only
    rw [if_neg (by simp), if_pos hname]
  | some sp =>
    dsimp only
    by_cases htr : strOptTruthy sp.player_id
    · rw [if_pos htr, if_pos (getPlayerName_ne_empty players (sp.player_id.getD ""))]
      rw [if_pos htr]
    · rw [if_neg htr, if_neg (by simp), if_pos hname]
      rw [if_neg htr]

/-- C6 witness: the slot-resolution theorem applied to a concrete
two-team 2023 standings bundle and a completed 2024 draft; the pick's
original owner finished rank 2 of 2, so the slot is 2 - 2 + 1 = 1 and
the searched overall number is (1 - 1) * 2 + 1 = 1. -/
theorem formatDraftPick_slot_resolution_witness :
    formatDraftPick c6Data c6Players c6Pick =
      (let totalTeams : Int := c6StandingsBundle.rosters.length
       let slot := totalTeams -
         (calculateRankFromRecord c6RosterBottom c6StandingsBundle.rosters : Int) + 1
       match ((c6PickBundle.draftPicks.lookup "d1").getD []).find?
           (fun p => p.pick_no == (c6Pick.round - 1) * totalTeams + slot) with
       | some sp =>
         if strOptTruthy sp.player_id then
           roundOnlyLabel c6Pick ++ " (" ++ pickNumberString c6Pick.round slot ++ " - " ++
             getPlayerName c6Players (sp.player_id.getD "") ++ ")"
         else
           roundOnlyLabel c6Pick ++ " (" ++ pickNumberString c6Pick.round slot ++ " - from " ++
             jsOrString c6UserBottom.display_name c6UserBottom.username ++ ")"
       | none =>
         roundOnlyLabel c6Pick ++ " (" ++ pickNumberString c6Pick.round slot ++ " - from " ++
           jsOrString c6UserBottom.display_name c6UserBottom.username ++ ")") :=
  formatDraftPick_slot_resolution c6Data c6Players c6Pick c6StandingsBundle c6PickBundle
    2 c6RosterBottom c6UserBottom ⟨"d1"⟩ []
    (by decide) (by decide) (by decide) (by decide) (by decide) (by decide)
    (by decide) (by decide) (by decide) (by decide)

end Sleeper
